import Mathlib

/-!
# Metric sampling of `infra-integrations-sdk/metric` (vendored in nri-kubernetes)

A shallow embedding of `metric/metrics.go`: the typed value set `MetricSet`, the
numeric check `isNumeric`, the cache key, and the RATE/DELTA sampling step, with
the process-wide sample cache and the clock made explicit; and of the node lookup of
the API server test double (`apiserver/fake_client.go`).

* `float64` is modelled exactly: NaN, the two infinities, and the finite values as
  signed integer multiples of `2^-1074` (every finite binary64 value is one), with
  round-to-nearest-even after each operation.
* `int64` timestamps are integers; the subtraction of two timestamps wraps modulo `2^64`.
* `fmt.Sprintf("%v", _)` and `strconv.ParseFloat(_, 64)` belong to the Go standard
  library and are parameters (`GoLib`); `stdLib` is a concrete instance used to
  evaluate examples.
-/

namespace metric

/-! ## float64 -/

/-- A `float64` value: NaN, a signed infinity, or the finite value
`(-1)^neg * mag * 2^-1074` (signed zeros are `fin false 0` and `fin true 0`). -/
inductive F64 where
  | nan
  | inf (neg : Bool)
  | fin (neg : Bool) (mag : Nat)
  deriving DecidableEq, Repr

namespace F64

/-- Number of `2^-1074` units in `1.0`. -/
def one : Nat := 2 ^ 1074

/-- First magnitude (in units of `2^-1074`) that is too large for a finite value: `2^1024`. -/
def overflow : Nat := 2 ^ 2098

/-- The constant `0.0`. -/
def zero : F64 := fin false 0

/-- Binary logarithm with fuel: the number of halvings that bring `n` below 2. -/
def log2Fuel : Nat → Nat → Nat
  | 0, _ => 0
  | fuel + 1, n => if n < 2 then 0 else log2Fuel fuel (n / 2) + 1

/-- Floor of the binary logarithm of `n` (0 for `n = 0`). -/
def log2 (n : Nat) : Nat := log2Fuel n n

/-- Position of the last kept bit for a magnitude whose integer part is `Q`: below `2^53`
units the spacing is one unit (subnormals and the first normal binade); above, 53 significant
bits are kept. -/
def shift (Q : Nat) : Nat := if Q < 2 ^ 53 then 0 else log2 Q - 52

/-- Round the positive rational `N / D` (in units of `2^-1074`, `D > 0`) to the nearest
binary64 magnitude, ties to even. -/
def roundMag (N D : Nat) : Nat :=
  let s := shift (N / D)
  let D2 := D * 2 ^ s
  let q := N / D2
  let r := N % D2
  let m := if 2 * r < D2 then q else if D2 < 2 * r then q + 1 else if q % 2 = 0 then q else q + 1
  m * 2 ^ s

/-- Round `N / D` units to binary64 and attach the sign; a magnitude of `2^1024` or more
becomes an infinity. -/
def round (neg : Bool) (N D : Nat) : F64 :=
  if overflow ≤ roundMag N D then inf neg else fin neg (roundMag N D)

/-- The signed number of units of a finite value. -/
def signed (neg : Bool) (mag : Nat) : Int := if neg then -(mag : Int) else (mag : Int)

/-- Go `a - b` on float64. -/
def sub : F64 → F64 → F64
  | nan, _ => nan
  | _, nan => nan
  | inf s, inf t => if s = t then nan else inf s
  | inf s, fin _ _ => inf s
  | fin _ _, inf t => inf (!t)
  | fin s m, fin t n =>
    let d := signed s m - signed t n
    if d = 0 then fin (s && !t) 0 else round (decide (d < 0)) d.natAbs 1

/-- Go `a / b` on float64. -/
def div : F64 → F64 → F64
  | nan, _ => nan
  | _, nan => nan
  | inf _, inf _ => nan
  | inf s, fin t _ => inf (xor s t)
  | fin s _, inf t => fin (xor s t) 0
  | fin s m, fin t n =>
    if n = 0 then (if m = 0 then nan else inf (xor s t))
    else if m = 0 then fin (xor s t) 0
    else round (xor s t) (m * one) n

/-- Go `a < b` on float64 (false whenever an operand is NaN; the two zeros are equal). -/
def lt : F64 → F64 → Bool
  | nan, _ => false
  | _, nan => false
  | inf s, inf t => s && !t
  | inf s, fin _ _ => s
  | fin _ _, inf t => !t
  | fin s m, fin t n => decide (signed s m < signed t n)

/-- Go `a >= b` on float64 (false whenever an operand is NaN). -/
def ge : F64 → F64 → Bool
  | nan, _ => false
  | _, nan => false
  | a, b => !(lt a b)

/-- Go `a == b` on float64 (false whenever an operand is NaN; the two zeros are equal). -/
def eq : F64 → F64 → Bool
  | inf s, inf t => s == t
  | fin s m, fin t n => decide (signed s m = signed t n)
  | _, _ => false

/-- Go conversion `float64(i)` of an integer. -/
def ofInt (i : Int) : F64 :=
  if i = 0 then zero else round (decide (i < 0)) (i.natAbs * one) 1

/-- A value is a genuine binary64 value: a finite magnitude is below `2^1024` and has at
most 53 significant bits. -/
def isValid : F64 → Bool
  | nan => true
  | inf _ => true
  | fin _ m => decide (m < overflow) && (decide (m < 2 ^ 53) || decide (m % 2 ^ (log2 m - 52) = 0))

end F64

/-! ## int64 -/

/-- Membership in the range of `int64`. -/
def isInt64 (i : Int) : Prop := -(2 : Int) ^ 63 ≤ i ∧ i < (2 : Int) ^ 63

instance (i : Int) : Decidable (isInt64 i) :=
  inferInstanceAs (Decidable (-(2 : Int) ^ 63 ≤ i ∧ i < (2 : Int) ^ 63))

/-- Two-complement wrap of an integer into `int64`. -/
def wrapInt64 (i : Int) : Int := (i + 2 ^ 63) % 2 ^ 64 - 2 ^ 63

/-! ## Values, library parameters, cache -/

/-- A Go value of the empty interface type, by dynamic type: `nil`, a boolean, an integer (any integer
type), a `float64`, a `string`, or a value of any other type (struct, slice, ...), which the
code can only observe through its `%v` text `text`. -/
inductive Value where
  | nil
  | bool (b : Bool)
  | int (i : Int)
  | float (f : F64)
  | str (s : String)
  | other (text : String)
  deriving DecidableEq, Repr

/-- The two Go standard library functions the package calls. -/
structure GoLib where
  /-- Text produced by `fmt.Sprintf("%v", value)`. -/
  sprintV : Value → String
  /-- Result of `strconv.ParseFloat(s, 64)`: `some f` when the returned error is nil. -/
  parseFloat : String → Option F64

/-- Modelled from the spec: the sample cache (package `cache`, not among the sources) maps a
key to the last reading and the timestamp at which it was recorded. -/
def Cache := String → Option (F64 × Int)

/-- Modelled from the spec: the cache with no entry. -/
def Cache.empty : Cache := fun _ => none

/-- Modelled from the spec: `cache.Get(key)` returns the previous value, its timestamp and
whether the key was found. -/
def Cache.Get (c : Cache) (key : String) : F64 × Int × Bool :=
  match c key with
  | some (v, t) => (v, t, true)
  | none => (F64.zero, 0, false)

/-- Modelled from the spec: `cache.Set(key, value)` records the reading with the current time
`now`, overwriting any prior entry of the key, and returns that timestamp. -/
def Cache.Set (c : Cache) (now : Int) (key : String) (value : F64) : Cache × Int :=
  (fun k => if k = key then some (value, now) else c k, now)

/-! ## The package -/

/-- The kind of data source (`type SourceType int`). -/
abbrev SourceType := Int

/-- A value stored as-is. -/
def GAUGE : SourceType := 0
/-- An ever-growing value; the change rate is stored. -/
def RATE : SourceType := 1
/-- An ever-growing value; the difference between samples is stored. -/
def DELTA : SourceType := 2
/-- Any string value. -/
def ATTRIBUTE : SourceType := 3

/-- The type `MetricSet`: a Go map from `string` to values of the empty interface type. -/
def MetricSet := String → Option Value

/-- The empty `MetricSet` literal. -/
def MetricSet.empty : MetricSet := fun _ => none

/-- Map assignment `ms[name] = v`. -/
def MetricSet.insert (ms : MetricSet) (name : String) (v : Value) : MetricSet :=
  fun k => if k = name then some v else ms k

/-- Source function `isNumeric`. -/
def isNumeric (go : GoLib) (value : Value) : Bool :=
  (go.parseFloat (go.sprintV value)).isSome

/-- Source method `MetricSet.cacheKey`. -/
def cacheKey (ms : MetricSet) (name : String) : String :=
  match ms "entityName", ms "event_type" with
  | some (Value.str entityName), some (Value.str eventType) =>
    entityName ++ "_" ++ eventType ++ "_" ++ name
  | _, _ => name

/-- Result of `sample`: the returned float, the returned error (its message), and the
cache after the call. -/
structure Sampled where
  value : F64
  err : Option String
  cache : Cache

/-- Source method `MetricSet.sample`; `now` is the clock reading taken by `cache.Set`. -/
def sample (go : GoLib) (now : Int) (cache : Cache) (ms : MetricSet) (name : String)
    (value : Value) (sourceType : SourceType) : Sampled :=
  let sampledValue := F64.zero
  match go.parseFloat (go.sprintV value) with
  | none => ⟨sampledValue, some ("Can\x27t sample metric of unknown type " ++ name), cache⟩
  | some floatValue =>
    let key := cacheKey ms name
    let (oldval, oldTime, ok) := cache.Get key
    let (cache1, newTime) := cache.Set now key floatValue
    if ok then
      let duration := wrapInt64 (newTime - oldTime)
      if duration = 0 then
        ⟨sampledValue, some ("Samples for " ++ key ++ " are too close in time, skipping sampling"),
          cache1⟩
      else if F64.lt (F64.sub floatValue oldval) F64.zero then
        ⟨sampledValue, some ("Source for " ++ key ++ " was reseted, skipping sampling"), cache1⟩
      else if sourceType = DELTA then
        ⟨F64.sub floatValue oldval, none, cache1⟩
      else
        ⟨F64.div (F64.sub floatValue oldval) (F64.ofInt duration), none, cache1⟩
    else
      ⟨sampledValue, none, cache1⟩

/-- Result of `SetMetric`: the returned error (its message, `none` for nil), the cache and
the set after the call. -/
structure Outcome where
  err : Option String
  cache : Cache
  ms : MetricSet

/-- Source method `MetricSet.SetMetric`; `now` is the clock reading taken by `cache.Set`. -/
def SetMetric (go : GoLib) (now : Int) (cache : Cache) (ms : MetricSet) (name : String)
    (value : Value) (sourceType : SourceType) : Outcome :=
  if sourceType = RATE ∨ sourceType = DELTA then
    if !isNumeric go value then
      ⟨some ("Invalid (non-numeric) data type for metric " ++ name), cache, ms⟩
    else
      let r := sample go now cache ms name value sourceType
      match r.err with
      | some e => ⟨some e, r.cache, ms⟩
      | none => ⟨none, r.cache, ms.insert name (Value.float r.value)⟩
  else if sourceType = GAUGE then
    if !isNumeric go value then
      ⟨some ("Invalid (non-numeric) data type for metric " ++ name), cache, ms⟩
    else
      ⟨none, cache, ms.insert name value⟩
  else if sourceType = ATTRIBUTE then
    match value with
    | Value.str _ => ⟨none, cache, ms.insert name value⟩
    | _ => ⟨some ("Invalid data type for attribute " ++ name), cache, ms⟩
  else
    ⟨some ("Unknown source type for key " ++ name), cache, ms⟩

/-- The set holds an entry under "event_type" and that entry is a string. -/
def hasEventType (ms : MetricSet) : Bool :=
  match ms "event_type" with
  | some (Value.str _) => true
  | _ => false

/-- Source function `NewMetricSet`: the returned set and the cache after the call. -/
def NewMetricSet (go : GoLib) (now : Int) (cache : Cache) (eventType : String) :
    MetricSet × Cache :=
  let r := SetMetric go now cache MetricSet.empty "event_type" (Value.str eventType) ATTRIBUTE
  (r.ms, r.cache)

/-! ## A concrete instance of the library parameters -/

namespace stdLib

/-- Read a run of decimal digits, continuing the number `acc`; returns the number, how many
digits were read, and the rest of the input. -/
def readDigits : List Char → Nat → Nat → Nat × Nat × List Char
  | [], acc, n => (acc, n, [])
  | c :: cs, acc, n =>
    if c.isDigit then readDigits cs (acc * 10 + (c.toNat - 48)) (n + 1) else (acc, n, c :: cs)

/-- Read an optional sign. -/
def readSign : List Char → Bool × List Char
  | '+' :: r => (false, r)
  | '-' :: r => (true, r)
  | cs => (false, cs)

/-- Read the exponent part of a decimal literal (empty, or `e`/`E`, optional sign, digits). -/
def readExponent : List Char → Option Int
  | [] => some 0
  | c :: t =>
    if c = 'e' ∨ c = 'E' then
      let (eneg, t2) := readSign t
      let (ev, n, rest) := readDigits t2 0 0
      if n = 0 ∨ rest ≠ [] then none else some (if eneg then -(ev : Int) else (ev : Int))
    else none

/-- The float nearest to `(-1)^neg * mant * 10^e`; a value that rounds to an infinity is a
range error. -/
def mkDecimal (neg : Bool) (mant : Nat) (e : Int) : Option F64 :=
  let f :=
    if mant = 0 then F64.fin neg 0
    else if 0 ≤ e then F64.round neg (mant * 10 ^ e.toNat * F64.one) 1
    else F64.round neg (mant * F64.one) (10 ^ (-e).toNat)
  match f with
  | F64.inf _ => none
  | f => some f

/-- A model of `strconv.ParseFloat(s, 64)` on decimal literals: optional sign, digits with an
optional fraction, optional decimal exponent, and the special texts `NaN`, `Inf`, `Infinity`
(any case), correctly rounded; out-of-range values are errors. Hexadecimal literals are not
read. -/
def parseFloat (s : String) : Option F64 :=
  let cs := s.toList
  let (neg, r) := readSign cs
  let low := r.map Char.toLower
  if low = ['i', 'n', 'f'] ∨ low = ['i', 'n', 'f', 'i', 'n', 'i', 't', 'y'] then some (F64.inf neg)
  else if cs.map Char.toLower = ['n', 'a', 'n'] then some F64.nan
  else
    let (ip, n1, r1) := readDigits r 0 0
    let (mant, n2, r2) :=
      match r1 with
      | '.' :: t => readDigits t ip 0
      | _ => (ip, 0, r1)
    if n1 + n2 = 0 then none
    else
      match readExponent r2 with
      | none => none
      | some e => mkDecimal neg mant (e - (n2 : Int))

/-- Drop the trailing zeros of a digit list. -/
def trimZeros (ds : List Char) : List Char :=
  (ds.reverse.dropWhile (fun c => c = '0')).reverse

/-- The exact decimal expansion of `mag * 2^-1074`. -/
def renderMag (mag : Nat) : String :=
  let ip := mag / F64.one
  let fr := (mag % F64.one) * 5 ^ 1074
  let ds := (Nat.repr fr).toList
  let frac := trimZeros (List.replicate (1074 - ds.length) '0' ++ ds)
  if fr = 0 then Nat.repr ip else Nat.repr ip ++ "." ++ String.mk frac

/-- Text of a `float64` under `%v`, up to the choice of digits: `NaN`, `+Inf`, `-Inf`, and for
a finite value its exact decimal expansion (fmt prints the shortest decimal text that parses
back to the same float). -/
def renderFloat : F64 → String
  | F64.nan => "NaN"
  | F64.inf false => "+Inf"
  | F64.inf true => "-Inf"
  | F64.fin neg mag => (if neg then "-" else "") ++ renderMag mag

/-- A model of `fmt.Sprintf("%v", value)`. -/
def sprintV : Value → String
  | Value.nil => "<nil>"
  | Value.bool b => if b then "true" else "false"
  | Value.int i => if i < 0 then "-" ++ Nat.repr i.natAbs else Nat.repr i.natAbs
  | Value.float f => renderFloat f
  | Value.str s => s
  | Value.other text => text

end stdLib

/-- The library instance used to evaluate the package on concrete inputs. -/
def stdLib : GoLib := ⟨stdLib.sprintV, stdLib.parseFloat⟩

/-! ## Example runs -/

namespace Examples

/-- First submission of the reading 10 as RATE under "cpu" at time 0, on an empty cache. -/
abbrev cpuFirst : Outcome :=
  SetMetric stdLib 0 Cache.empty MetricSet.empty "cpu" (Value.int 10) RATE

/-- First submission of the reading 5 as DELTA under "cpu" at time 7, on an empty cache. -/
abbrev dropFirst : Outcome :=
  SetMetric stdLib 7 Cache.empty MetricSet.empty "cpu" (Value.int 5) DELTA

/-- The lower reading 3 submitted at the same time 7. -/
abbrev dropSameTime : Outcome :=
  SetMetric stdLib 7 dropFirst.cache dropFirst.ms "cpu" (Value.int 3) DELTA

/-- A set holding the string entries `event_type = "net"` and `entityName = "host1"`. -/
abbrev hostSet : MetricSet :=
  (MetricSet.empty.insert "event_type" (Value.str "net")).insert "entityName" (Value.str "host1")

/-- A set whose `entityName` entry is not a string. -/
abbrev oddSet : MetricSet :=
  (MetricSet.empty.insert "event_type" (Value.str "net")).insert "entityName" (Value.int 5)

/-- Two sets with different (entityName, event_type) pairs: ("a_b", "c") and ("a", "b_c"). -/
abbrev clashSetA : MetricSet :=
  (MetricSet.empty.insert "event_type" (Value.str "c")).insert "entityName" (Value.str "a_b")

/-- The second set of the pair: entityName "a", event_type "b_c". -/
abbrev clashSetB : MetricSet :=
  (MetricSet.empty.insert "event_type" (Value.str "b_c")).insert "entityName" (Value.str "a")

/-- The set built by `NewMetricSet("net")` with entityName then set to the string "host1". -/
abbrev netSet : MetricSet :=
  (SetMetric stdLib 0 Cache.empty (NewMetricSet stdLib 0 Cache.empty "net").1 "entityName"
    (Value.str "host1") ATTRIBUTE).ms

/-- Scenario step 1: the reading 100 as DELTA under "bytes" at time 0, on an empty cache. -/
abbrev bytesStep1 : Outcome :=
  SetMetric stdLib 0 Cache.empty netSet "bytes" (Value.int 100) DELTA

/-- Scenario step 2: the reading 150 as DELTA under "bytes" at time 5. -/
abbrev bytesStep2 : Outcome :=
  SetMetric stdLib 5 bytesStep1.cache bytesStep1.ms "bytes" (Value.int 150) DELTA

/-- Scenario step 3: the reading 120 as DELTA under "bytes" at time 10. -/
abbrev bytesStep3 : Outcome :=
  SetMetric stdLib 10 bytesStep2.cache bytesStep2.ms "bytes" (Value.int 120) DELTA

/-- The text "NaN" submitted as RATE under "cpu" at time 10, after the reading 10 at time 0. -/
abbrev cpuNaN : Outcome :=
  SetMetric stdLib 10 cpuFirst.cache cpuFirst.ms "cpu" (Value.str "NaN") RATE

/-- The text "NaN" submitted as DELTA under "cpu" at time 10, after the reading 10 at time 0. -/
abbrev cpuNaNDelta : Outcome :=
  SetMetric stdLib 10 cpuFirst.cache cpuFirst.ms "cpu" (Value.str "NaN") DELTA

/-- First submission of the reading 10 as RATE under "cpu" at time 10, on an empty cache. -/
abbrev lateFirst : Outcome :=
  SetMetric stdLib 10 Cache.empty MetricSet.empty "cpu" (Value.int 10) RATE

/-- The reading 30 submitted as RATE at the earlier time 5. -/
abbrev lateBackwards : Outcome :=
  SetMetric stdLib 5 lateFirst.cache lateFirst.ms "cpu" (Value.int 30) RATE

/-- First submission of the reading 10 as RATE under "cpu" at the least `int64` time, on an
empty cache. -/
abbrev farFirst : Outcome :=
  SetMetric stdLib (-9223372036854775808) Cache.empty MetricSet.empty "cpu" (Value.int 10) RATE

/-- The reading 30 submitted as RATE at the greatest `int64` time. -/
abbrev farSecond : Outcome :=
  SetMetric stdLib 9223372036854775807 farFirst.cache farFirst.ms "cpu" (Value.int 30) RATE

/-- The reading 5 submitted as RATE under the name "entityName" at time 0, in `hostSet`. -/
abbrev shadowFirst : Outcome :=
  SetMetric stdLib 0 Cache.empty hostSet "entityName" (Value.int 5) RATE

/-- The reading 8 then submitted as DELTA under the name "entityName" at time 10. -/
abbrev shadowSecond : Outcome :=
  SetMetric stdLib 10 shadowFirst.cache shadowFirst.ms "entityName" (Value.int 8) DELTA

end Examples

end metric

/-! ## The API server test double (`src/apiserver/fake_client.go`) -/

namespace apiserver

/-- The struct `TestAPIServer`: its field `Mem` maps a node name to a `*NodeInfo`, which may be
nil (`none`). The struct `NodeInfo` is declared elsewhere in the package and is a parameter. -/
structure TestAPIServer (NodeInfo : Type) where
  Mem : String → Option (Option NodeInfo)

/-- Result of `GetNodeInfo`: the returned pointer, the returned error (its message), and the
receiver after the call. -/
structure Lookup (NodeInfo : Type) where
  node : Option NodeInfo
  err : Option String
  server : TestAPIServer NodeInfo

/-- Source method `TestAPIServer.GetNodeInfo`. -/
def TestAPIServer.GetNodeInfo {NodeInfo : Type} (t : TestAPIServer NodeInfo)
    (nodeName : String) : Lookup NodeInfo :=
  match t.Mem nodeName with
  | none => ⟨none, some ("could not find node info for: " ++ nodeName), t⟩
  | some node => ⟨node, none, t⟩

/-- A server holding one node, "node-1", whose info is the text "info-1". -/
abbrev oneNode : TestAPIServer String :=
  ⟨fun k => if k = "node-1" then some (some "info-1") else none⟩

end apiserver

namespace metric

/-! ## Facts about the float64 and int64 models -/

theorem F64.log2Fuel_le (fuel : Nat) : ∀ n : Nat, n ≠ 0 → 2 ^ F64.log2Fuel fuel n ≤ n := by
  induction fuel with
  | zero => intro n hn; simp [F64.log2Fuel]; omega
  | succ fuel ih =>
    intro n hn
    unfold F64.log2Fuel
    split
    · simp; omega
    · have h2 : n / 2 ≠ 0 := by omega
      have := ih (n / 2) h2
      rw [pow_succ]
      omega

theorem F64.log2_le (n : Nat) (hn : n ≠ 0) : 2 ^ F64.log2 n ≤ n :=
  F64.log2Fuel_le n n hn

theorem F64.lt_log2Fuel (fuel : Nat) : ∀ n : Nat, n ≤ fuel → n < 2 ^ (F64.log2Fuel fuel n + 1) := by
  induction fuel with
  | zero => intro n hn; simp [F64.log2Fuel]; omega
  | succ fuel ih =>
    intro n hn
    unfold F64.log2Fuel
    split
    · simp; omega
    · have := ih (n / 2) (by omega)
      rw [pow_succ]
      omega

/-- The model logarithm is the floor of the binary logarithm. -/
theorem F64.log2_spec (n : Nat) (hn : n ≠ 0) : 2 ^ F64.log2 n ≤ n ∧ n < 2 ^ (F64.log2 n + 1) :=
  ⟨F64.log2_le n hn, F64.lt_log2Fuel n n (le_refl n)⟩

theorem F64.two_pow_shift_le (Q : Nat) (hQ : 0 < Q) : 2 ^ F64.shift Q ≤ Q := by
  unfold F64.shift
  by_cases h : Q < 2 ^ 53
  · rw [if_pos h]; simpa using hQ
  · rw [if_neg h]
    calc 2 ^ (F64.log2 Q - 52) ≤ 2 ^ F64.log2 Q := Nat.pow_le_pow_right (by decide) (Nat.sub_le _ _)
      _ ≤ Q := F64.log2_le Q (by omega)

/-- Rounding a non-zero whole number of units never gives zero units. -/
theorem F64.roundMag_one_pos (N : Nat) (hN : 0 < N) : 0 < F64.roundMag N 1 := by
  unfold F64.roundMag
  simp only [Nat.div_one, Nat.one_mul]
  have hsN : 2 ^ F64.shift N ≤ N := F64.two_pow_shift_le N hN
  have hpos : 0 < 2 ^ F64.shift N := Nat.pow_pos (by decide)
  have hq : 0 < N / 2 ^ F64.shift N := Nat.div_pos hsN hpos
  apply Nat.mul_pos _ hpos
  split_ifs <;> omega

/-- Rounding a non-zero whole number of units gives an infinity or a non-zero finite value,
of the given sign. -/
theorem F64.round_one_pos (neg : Bool) (N : Nat) (hN : 0 < N) :
    F64.round neg N 1 = F64.inf neg ∨ ∃ k, 0 < k ∧ F64.round neg N 1 = F64.fin neg k := by
  unfold F64.round
  by_cases h : F64.overflow ≤ F64.roundMag N 1
  · rw [if_pos h]; exact Or.inl rfl
  · rw [if_neg h]; exact Or.inr ⟨_, F64.roundMag_one_pos N hN, rfl⟩

/-- On float64, `a - b < 0` holds exactly when `a < b` (also with NaN and infinities). -/
theorem F64.sub_lt_zero (a b : F64) : F64.lt (F64.sub a b) F64.zero = F64.lt a b := by
  cases a with
  | nan => cases b <;> rfl
  | inf s =>
    cases b with
    | nan => rfl
    | inf t => cases s <;> cases t <;> rfl
    | fin t n => cases s <;> rfl
  | fin s m =>
    cases b with
    | nan => rfl
    | inf t => cases t <;> rfl
    | fin t n =>
      simp only [F64.sub, F64.lt]
      generalize F64.signed s m = x
      generalize F64.signed t n = y
      by_cases hd : x - y = 0
      · rw [if_pos hd]
        have hxy : ¬ x < y := by omega
        simp [F64.zero, F64.lt, F64.signed, hxy]
      · rw [if_neg hd]
        have hN : 0 < (x - y).natAbs := Int.natAbs_pos.mpr hd
        have key : decide (x - y < 0) = decide (x < y) := by
          by_cases hxy : x < y
          · have : x - y < 0 := by omega
            simp [hxy, this]
          · have : ¬ x - y < 0 := by omega
            simp [hxy, this]
        rw [key]
        rcases F64.round_one_pos (decide (x < y)) _ hN with h | ⟨k, hk, h⟩
        · rw [h]; rfl
        · rw [h]
          by_cases hxy : x < y
          · simp [F64.zero, F64.lt, F64.signed, hxy]; omega
          · simp [F64.zero, F64.lt, F64.signed, hxy]

/-- Checks of the float64 model against known binary64 results: `1/3`, the tie `2^53 + 1`
(to even, down) and `2^53 + 3` (to even, up), and `(30 - 10) / 10 = 2`. -/
theorem F64.arith_model_checks :
    F64.div (F64.ofInt 1) (F64.ofInt 3) = F64.fin false (6004799503160661 * 2 ^ 1020) ∧
    F64.ofInt (2 ^ 53 + 1) = F64.fin false (2 ^ 53 * F64.one) ∧
    F64.ofInt (2 ^ 53 + 3) = F64.fin false ((2 ^ 53 + 4) * F64.one) ∧
    F64.div (F64.sub (F64.ofInt 30) (F64.ofInt 10)) (F64.ofInt 10) = F64.ofInt 2 ∧
    F64.sub (F64.inf false) (F64.inf false) = F64.nan ∧
    F64.lt (F64.fin true 0) F64.zero = false ∧
    (F64.div (F64.ofInt 1) (F64.ofInt 3)).isValid = true := by
  decide!

/-- Checks of the decimal reader against known binary64 results: `0.1`, the largest finite
value, a literal that overflows, the smallest subnormal, and an underflow to zero. -/
theorem stdLib.reader_model_checks :
    stdLib.parseFloat "0.1" = some (F64.fin false (3602879701896397 * 2 ^ 1019)) ∧
    stdLib.parseFloat "1.7976931348623157e308" = some (F64.fin false ((2 ^ 53 - 1) * 2 ^ 2045)) ∧
    stdLib.parseFloat "1.7976931348623159e308" = none ∧
    stdLib.parseFloat "5e-324" = some (F64.fin false 1) ∧
    stdLib.parseFloat "2e-324" = some (F64.fin false 0) ∧
    stdLib.parseFloat "-Inf" = some (F64.inf true) ∧
    stdLib.parseFloat "NaN" = some F64.nan ∧
    stdLib.sprintV (Value.int (-10)) = "-10" ∧
    stdLib.sprintV (Value.float (F64.div (F64.ofInt 5) (F64.ofInt 2))) = "2.5" := by
  decide!

theorem wrapInt64_zero : wrapInt64 0 = 0 := by decide

theorem wrapInt64_of_isInt64 (i : Int) (h : isInt64 i) : wrapInt64 i = i := by
  unfold isInt64 at h
  unfold wrapInt64
  omega

theorem wrapInt64_sub_ne_zero (a b : Int) (ha : isInt64 a) (hb : isInt64 b) (hne : a ≠ b) :
    wrapInt64 (a - b) ≠ 0 := by
  unfold isInt64 at ha hb
  unfold wrapInt64
  omega

/-- A positive difference below `2^63` is an `int64`: the subtraction does not wrap. -/
theorem wrapInt64_sub_fits (a b : Int) (hle : b ≤ a) (hfit : a - b < (2 : Int) ^ 63) :
    wrapInt64 (a - b) = a - b := by
  apply wrapInt64_of_isInt64
  unfold isInt64
  omega

/-! ## Unfolding lemmas for the package -/

theorem isNumeric_of_parse (go : GoLib) (value : Value) (v : F64)
    (hp : go.parseFloat (go.sprintV value) = some v) : isNumeric go value = true := by
  simp [isNumeric, hp]

theorem parse_of_isNumeric (go : GoLib) (value : Value) (h : isNumeric go value = true) :
    ∃ v, go.parseFloat (go.sprintV value) = some v := by
  unfold isNumeric at h
  exact Option.isSome_iff_exists.mp h

theorem not_isNumeric_of_parse (go : GoLib) (value : Value)
    (hp : go.parseFloat (go.sprintV value) = none) : isNumeric go value = false := by
  simp [isNumeric, hp]

/-- The sampling step on a key the cache has never seen. -/
theorem sample_unseen (go : GoLib) (now : Int) (cache : Cache) (ms : MetricSet) (name : String)
    (value : Value) (kind : SourceType) (v : F64)
    (hp : go.parseFloat (go.sprintV value) = some v)
    (hc : cache (cacheKey ms name) = none) :
    sample go now cache ms name value kind
      = ⟨F64.zero, none, (cache.Set now (cacheKey ms name) v).1⟩ := by
  simp [sample, hp, Cache.Get, Cache.Set, hc]

/-- The sampling step on a key with a cached reading `(v1, t1)`. -/
theorem sample_seen (go : GoLib) (now : Int) (cache : Cache) (ms : MetricSet) (name : String)
    (value : Value) (kind : SourceType) (v v1 : F64) (t1 : Int)
    (hp : go.parseFloat (go.sprintV value) = some v)
    (hc : cache (cacheKey ms name) = some (v1, t1)) :
    sample go now cache ms name value kind
      = if wrapInt64 (now - t1) = 0 then
          ⟨F64.zero, some ("Samples for " ++ cacheKey ms name
              ++ " are too close in time, skipping sampling"),
            (cache.Set now (cacheKey ms name) v).1⟩
        else if F64.lt (F64.sub v v1) F64.zero then
          ⟨F64.zero, some ("Source for " ++ cacheKey ms name ++ " was reseted, skipping sampling"),
            (cache.Set now (cacheKey ms name) v).1⟩
        else if kind = DELTA then
          ⟨F64.sub v v1, none, (cache.Set now (cacheKey ms name) v).1⟩
        else
          ⟨F64.div (F64.sub v v1) (F64.ofInt (wrapInt64 (now - t1))), none,
            (cache.Set now (cacheKey ms name) v).1⟩ := by
  simp [sample, hp, Cache.Get, Cache.Set, hc]

/-- A RATE or DELTA submission of a numeric value runs the sampling step. -/
theorem SetMetric_sampling (go : GoLib) (now : Int) (cache : Cache) (ms : MetricSet)
    (name : String) (value : Value) (kind : SourceType)
    (hk : kind = RATE ∨ kind = DELTA) (hn : isNumeric go value = true) :
    SetMetric go now cache ms name value kind
      = match (sample go now cache ms name value kind).err with
        | some e => ⟨some e, (sample go now cache ms name value kind).cache, ms⟩
        | none => ⟨none, (sample go now cache ms name value kind).cache,
            ms.insert name (Value.float (sample go now cache ms name value kind).value)⟩ := by
  simp [SetMetric, hk, hn]

theorem cache_Set_same (c : Cache) (now : Int) (key : String) (v : F64) :
    (c.Set now key v).1 key = some (v, now) := by
  simp [Cache.Set]

theorem cache_Set_other (c : Cache) (now : Int) (key k : String) (v : F64) (h : k ≠ key) :
    (c.Set now key v).1 k = c k := by
  simp [Cache.Set, h]

theorem insert_same (ms : MetricSet) (name : String) (v : Value) :
    ms.insert name v name = some v := by
  simp [MetricSet.insert]

theorem insert_other (ms : MetricSet) (name k : String) (v : Value) (h : k ≠ name) :
    ms.insert name v k = ms k := by
  simp [MetricSet.insert, h]

/-! ## Sampling: first observation, normal sample, reset, zero duration -/

/-- C1: for every numeric value, every metric name and every kind in RATE, DELTA, when the
sample cache holds no entry for the metric's cache key, `SetMetric` returns no error and the
entry stored under the name is the float `0`. -/
theorem C1_first_sample_stores_zero (go : GoLib) (now : Int) (cache : Cache) (ms : MetricSet)
    (name : String) (value : Value) (kind : SourceType)
    (hkind : kind = RATE ∨ kind = DELTA)
    (hnum : isNumeric go value = true)
    (hnew : cache (cacheKey ms name) = none) :
    (SetMetric go now cache ms name value kind).err = none ∧
    (SetMetric go now cache ms name value kind).ms name = some (Value.float F64.zero) := by
  obtain ⟨v, hp⟩ := parse_of_isNumeric go value hnum
  rw [SetMetric_sampling go now cache ms name value kind hkind hnum,
    sample_unseen go now cache ms name value kind v hp hnew]
  exact ⟨rfl, insert_same ms name _⟩

/-- Witness of C1: the integer 10 submitted as RATE under "cpu" on an empty cache. -/
theorem C1_first_sample_stores_zero_witness :
    (RATE = RATE ∨ RATE = DELTA) ∧
    isNumeric stdLib (Value.int 10) = true ∧
    Cache.empty (cacheKey MetricSet.empty "cpu") = none ∧
    (SetMetric stdLib 0 Cache.empty MetricSet.empty "cpu" (Value.int 10) RATE).err = none ∧
    (SetMetric stdLib 0 Cache.empty MetricSet.empty "cpu" (Value.int 10) RATE).ms "cpu"
      = some (Value.float F64.zero) :=
  ⟨Or.inl rfl, by decide!, rfl,
    C1_first_sample_stores_zero stdLib 0 Cache.empty MetricSet.empty "cpu" (Value.int 10) RATE
      (Or.inl rfl) (by decide!) rfl⟩

/-- C2 fails as stated: with the cached reading 10 recorded at the least `int64` timestamp and
the reading 30 submitted as RATE at the greatest one, the `int64` duration wraps to -1 and the
call stores `(30 - 10) / (-1) = -20`, not `(30 - 10) / (t2 - t1)`. -/
theorem C2_counterexample :
    isInt64 (-9223372036854775808) ∧ isInt64 9223372036854775807 ∧
    (-9223372036854775808 : Int) < 9223372036854775807 ∧
    Examples.farFirst.cache (cacheKey Examples.farFirst.ms "cpu")
      = some (F64.ofInt 10, -9223372036854775808) ∧
    stdLib.parseFloat (stdLib.sprintV (Value.int 30)) = some (F64.ofInt 30) ∧
    F64.lt (F64.ofInt 10) (F64.ofInt 30) = true ∧
    wrapInt64 (9223372036854775807 - (-9223372036854775808)) = -1 ∧
    Examples.farSecond.err = none ∧
    Examples.farSecond.ms "cpu" = some (Value.float (F64.ofInt (-20))) ∧
    Examples.farSecond.ms "cpu" ≠ some (Value.float (F64.div
      (F64.sub (F64.ofInt 30) (F64.ofInt 10))
      (F64.ofInt (9223372036854775807 - (-9223372036854775808))))) := by
  decide!

/-- C2 (amended): when the cache holds the previous reading `v1` recorded at timestamp `t1` for
the metric's key, and a reading `v2` with `v1 < v2` is submitted at timestamp `t2` with
`t1 < t2` (both `int64`), `SetMetric` returns no error and stores `v2 - v1` under the name for
DELTA, and `(v2 - v1) / (t2 - t1)` for RATE when `t2 - t1` fits in `int64`
(`t2 - t1 < 2^63`). -/
theorem C2_sampled_delta_and_rate (go : GoLib) (cache : Cache) (ms : MetricSet)
    (name : String) (value : Value) (kind : SourceType) (v1 v2 : F64) (t1 t2 : Int)
    (hkind : kind = RATE ∨ kind = DELTA)
    (hread : go.parseFloat (go.sprintV value) = some v2)
    (hold : cache (cacheKey ms name) = some (v1, t1))
    (hlt : F64.lt v1 v2 = true)
    (ht1 : isInt64 t1) (ht2 : isInt64 t2) (ht : t1 < t2) :
    (SetMetric go t2 cache ms name value kind).err = none ∧
    (kind = DELTA →
      (SetMetric go t2 cache ms name value kind).ms name = some (Value.float (F64.sub v2 v1))) ∧
    (kind = RATE → t2 - t1 < (2 : Int) ^ 63 →
      (SetMetric go t2 cache ms name value kind).ms name
        = some (Value.float (F64.div (F64.sub v2 v1) (F64.ofInt (t2 - t1))))) := by
  have hnum := isNumeric_of_parse go value v2 hread
  have hne : ¬ (wrapInt64 (t2 - t1) = 0) :=
    wrapInt64_sub_ne_zero t2 t1 ht2 ht1 (by omega)
  have hnolt : F64.lt (F64.sub v2 v1) F64.zero = false := by
    rw [F64.sub_lt_zero]
    cases v1 with
    | nan => cases v2 <;> simp [F64.lt] at hlt
    | inf s =>
      cases v2 with
      | nan => simp [F64.lt] at hlt
      | inf t => cases s <;> cases t <;> simp [F64.lt] at hlt ⊢
      | fin t n => cases s <;> simp [F64.lt] at hlt ⊢
    | fin s m =>
      cases v2 with
      | nan => simp [F64.lt] at hlt
      | inf t => cases t <;> simp [F64.lt] at hlt ⊢
      | fin t n => simp only [F64.lt, decide_eq_true_eq, decide_eq_false_iff_not] at hlt ⊢; omega
  rw [SetMetric_sampling go t2 cache ms name value kind hkind hnum,
    sample_seen go t2 cache ms name value kind v2 v1 t1 hread hold, if_neg hne, hnolt]
  rcases hkind with rfl | rfl
  · have hnd : ¬ (RATE = DELTA) := by decide
    rw [if_neg (by simp), if_neg hnd]
    refine ⟨rfl, fun h => absurd h hnd, fun _ hfit => ?_⟩
    rw [wrapInt64_sub_fits t2 t1 (by omega) hfit]
    exact insert_same ms name _
  · have hnr : ¬ (DELTA = RATE) := by decide
    rw [if_neg (by simp), if_pos rfl]
    exact ⟨rfl, fun _ => insert_same ms name _, fun h => absurd h hnr⟩

/-- Witness of C2 (amended): the readings 10 at time 0 and 30 at time 10, submitted as RATE
under "cpu", store `(30 - 10) / (10 - 0) = 2.0`. -/
theorem C2_sampled_delta_and_rate_witness :
    (RATE = RATE ∨ RATE = DELTA) ∧
    stdLib.parseFloat (stdLib.sprintV (Value.int 30)) = some (F64.ofInt 30) ∧
    Examples.cpuFirst.cache (cacheKey Examples.cpuFirst.ms "cpu") = some (F64.ofInt 10, 0) ∧
    F64.lt (F64.ofInt 10) (F64.ofInt 30) = true ∧
    isInt64 0 ∧ isInt64 10 ∧ (0 : Int) < 10 ∧ (10 : Int) - 0 < 2 ^ 63 ∧
    Examples.cpuFirst.ms "cpu" = some (Value.float F64.zero) ∧
    (SetMetric stdLib 10 Examples.cpuFirst.cache Examples.cpuFirst.ms "cpu" (Value.int 30) RATE).err
      = none ∧
    (SetMetric stdLib 10 Examples.cpuFirst.cache Examples.cpuFirst.ms "cpu" (Value.int 30) RATE).ms
      "cpu" = some (Value.float (F64.ofInt 2)) ∧
    F64.ofInt 2 = F64.fin false (2 * F64.one) :=
  have h := C2_sampled_delta_and_rate stdLib Examples.cpuFirst.cache Examples.cpuFirst.ms "cpu"
    (Value.int 30) RATE (F64.ofInt 10) (F64.ofInt 30) 0 10 (Or.inl rfl) (by decide!) (by decide!)
    (by decide!) (by decide) (by decide) (by decide)
  ⟨Or.inl rfl, by decide!, by decide!, by decide!, by decide, by decide, by decide, by decide,
    by decide!, h.1, (h.2.2 rfl (by decide)).trans (by decide!), by decide!⟩

/-- C3 fails as stated: with the cached reading 5 recorded at time 7, the lower reading 3
submitted at the same time 7 is rejected as too close in time, not as a counter reset. -/
theorem C3_counterexample :
    Examples.dropFirst.cache (cacheKey Examples.dropFirst.ms "cpu") = some (F64.ofInt 5, 7) ∧
    stdLib.parseFloat (stdLib.sprintV (Value.int 3)) = some (F64.ofInt 3) ∧
    F64.lt (F64.ofInt 3) (F64.ofInt 5) = true ∧
    Examples.dropSameTime.err = some "Samples for cpu are too close in time, skipping sampling" ∧
    Examples.dropSameTime.err ≠ some "Source for cpu was reseted, skipping sampling" := by
  decide!

/-- C3 (amended): when the cache holds the reading `v1` recorded at `t1` for the metric's key
and a reading `v2 < v1` is submitted as RATE or DELTA at a timestamp `t2` different from `t1`
(both `int64`), `SetMetric` fails with the counter-reset error, leaves the set unchanged, and
leaves the cache entry of the key equal to `(v2, t2)`. -/
theorem C3_counter_reset (go : GoLib) (cache : Cache) (ms : MetricSet)
    (name : String) (value : Value) (kind : SourceType) (v1 v2 : F64) (t1 t2 : Int)
    (hkind : kind = RATE ∨ kind = DELTA)
    (hread : go.parseFloat (go.sprintV value) = some v2)
    (hold : cache (cacheKey ms name) = some (v1, t1))
    (hlt : F64.lt v2 v1 = true)
    (ht1 : isInt64 t1) (ht2 : isInt64 t2) (hne : t2 ≠ t1) :
    (SetMetric go t2 cache ms name value kind).err
      = some ("Source for " ++ cacheKey ms name ++ " was reseted, skipping sampling") ∧
    (SetMetric go t2 cache ms name value kind).ms = ms ∧
    (SetMetric go t2 cache ms name value kind).cache (cacheKey ms name) = some (v2, t2) := by
  have hnum := isNumeric_of_parse go value v2 hread
  have hdur : ¬ (wrapInt64 (t2 - t1) = 0) := wrapInt64_sub_ne_zero t2 t1 ht2 ht1 hne
  have hneg : F64.lt (F64.sub v2 v1) F64.zero = true := by rw [F64.sub_lt_zero]; exact hlt
  rw [SetMetric_sampling go t2 cache ms name value kind hkind hnum,
    sample_seen go t2 cache ms name value kind v2 v1 t1 hread hold, if_neg hdur, hneg, if_pos rfl]
  exact ⟨rfl, rfl, cache_Set_same cache t2 _ v2⟩

/-- Witness of C3 (amended): cached reading 5 at time 7, reading 3 submitted at time 9. -/
theorem C3_counter_reset_witness :
    (DELTA = RATE ∨ DELTA = DELTA) ∧
    stdLib.parseFloat (stdLib.sprintV (Value.int 3)) = some (F64.ofInt 3) ∧
    Examples.dropFirst.cache (cacheKey Examples.dropFirst.ms "cpu") = some (F64.ofInt 5, 7) ∧
    F64.lt (F64.ofInt 3) (F64.ofInt 5) = true ∧
    isInt64 7 ∧ isInt64 9 ∧ (9 : Int) ≠ 7 ∧
    (SetMetric stdLib 9 Examples.dropFirst.cache Examples.dropFirst.ms "cpu" (Value.int 3) DELTA).err
      = some "Source for cpu was reseted, skipping sampling" ∧
    (SetMetric stdLib 9 Examples.dropFirst.cache Examples.dropFirst.ms "cpu" (Value.int 3) DELTA).ms
      = Examples.dropFirst.ms ∧
    (SetMetric stdLib 9 Examples.dropFirst.cache Examples.dropFirst.ms "cpu" (Value.int 3)
      DELTA).cache (cacheKey Examples.dropFirst.ms "cpu") = some (F64.ofInt 3, 9) :=
  have h := C3_counter_reset stdLib Examples.dropFirst.cache Examples.dropFirst.ms "cpu"
    (Value.int 3) DELTA (F64.ofInt 5) (F64.ofInt 3) 7 9 (Or.inr rfl) (by decide!) (by decide!)
    (by decide!) (by decide) (by decide) (by decide)
  ⟨Or.inr rfl, by decide!, by decide!, by decide!, by decide, by decide, by decide,
    h.1.trans (by decide!), h.2.1, h.2.2⟩

/-- C4: for every RATE or DELTA submission of a numeric value whose cache key has an entry
recorded at the timestamp of the submission, `SetMetric` fails with the too-close error,
whatever the old and new readings, and leaves the set unchanged. -/
theorem C4_samples_too_close (go : GoLib) (cache : Cache) (ms : MetricSet)
    (name : String) (value : Value) (kind : SourceType) (v1 : F64) (t1 t2 : Int)
    (hkind : kind = RATE ∨ kind = DELTA)
    (hnum : isNumeric go value = true)
    (hold : cache (cacheKey ms name) = some (v1, t1))
    (hsame : t2 = t1) :
    (SetMetric go t2 cache ms name value kind).err
      = some ("Samples for " ++ cacheKey ms name ++ " are too close in time, skipping sampling") ∧
    (SetMetric go t2 cache ms name value kind).ms = ms := by
  obtain ⟨v, hp⟩ := parse_of_isNumeric go value hnum
  have hdur : wrapInt64 (t2 - t1) = 0 := by rw [hsame, sub_self]; exact wrapInt64_zero
  rw [SetMetric_sampling go t2 cache ms name value kind hkind hnum,
    sample_seen go t2 cache ms name value kind v v1 t1 hp hold, if_pos hdur]
  exact ⟨rfl, rfl⟩

/-- Witness of C4: cached reading 10 at time 0, reading 30 submitted as RATE at time 0. -/
theorem C4_samples_too_close_witness :
    (RATE = RATE ∨ RATE = DELTA) ∧
    isNumeric stdLib (Value.int 30) = true ∧
    Examples.cpuFirst.cache (cacheKey Examples.cpuFirst.ms "cpu") = some (F64.ofInt 10, 0) ∧
    (SetMetric stdLib 0 Examples.cpuFirst.cache Examples.cpuFirst.ms "cpu" (Value.int 30) RATE).err
      = some "Samples for cpu are too close in time, skipping sampling" ∧
    (SetMetric stdLib 0 Examples.cpuFirst.cache Examples.cpuFirst.ms "cpu" (Value.int 30) RATE).ms
      = Examples.cpuFirst.ms :=
  have h := C4_samples_too_close stdLib Examples.cpuFirst.cache Examples.cpuFirst.ms "cpu"
    (Value.int 30) RATE (F64.ofInt 10) 0 0 (Or.inl rfl) (by decide!) (by decide!) rfl
  ⟨Or.inl rfl, by decide!, by decide!, h.1.trans (by decide!), h.2⟩

/-! ## Errors and the set -/

/-- C5: whenever `SetMetric` returns an error, the set after the call is the set before the
call, and the error is one of: invalid type (non-numeric metric, or non-string attribute),
unknown source type, samples too close, counter reset. -/
theorem C5_error_leaves_set_unchanged (go : GoLib) (now : Int) (cache : Cache) (ms : MetricSet)
    (name : String) (value : Value) (kind : SourceType)
    (herr : (SetMetric go now cache ms name value kind).err ≠ none) :
    (SetMetric go now cache ms name value kind).ms = ms ∧
    ((SetMetric go now cache ms name value kind).err
        = some ("Invalid (non-numeric) data type for metric " ++ name) ∨
      (SetMetric go now cache ms name value kind).err
        = some ("Invalid data type for attribute " ++ name) ∨
      (SetMetric go now cache ms name value kind).err
        = some ("Unknown source type for key " ++ name) ∨
      (SetMetric go now cache ms name value kind).err
        = some ("Samples for " ++ cacheKey ms name ++ " are too close in time, skipping sampling") ∨
      (SetMetric go now cache ms name value kind).err
        = some ("Source for " ++ cacheKey ms name ++ " was reseted, skipping sampling")) := by
  by_cases hk : kind = RATE ∨ kind = DELTA
  · cases hnum : isNumeric go value with
    | false => simp [SetMetric, hk, hnum]
    | true =>
      obtain ⟨v, hp⟩ := parse_of_isNumeric go value hnum
      rw [SetMetric_sampling go now cache ms name value kind hk hnum] at herr ⊢
      cases hc : cache (cacheKey ms name) with
      | none =>
        rw [sample_unseen go now cache ms name value kind v hp hc] at herr
        exact absurd rfl herr
      | some e =>
        obtain ⟨v1, t1⟩ := e
        rw [sample_seen go now cache ms name value kind v v1 t1 hp hc] at herr ⊢
        split_ifs at herr ⊢
        · simp
        · simp
        · exact absurd rfl herr
        · exact absurd rfl herr
  · by_cases hg : kind = GAUGE
    · subst hg
      cases hnum : isNumeric go value with
      | false => simp [SetMetric, hnum, GAUGE, RATE, DELTA]
      | true => simp [SetMetric, hnum, GAUGE, RATE, DELTA] at herr
    · by_cases ha : kind = ATTRIBUTE
      · subst ha
        cases value <;> simp [SetMetric, GAUGE, RATE, DELTA, ATTRIBUTE] at herr ⊢
      · simp [SetMetric, hk, hg, ha]

/-- Witness of C5: a boolean submitted as GAUGE is rejected and the set is unchanged. -/
theorem C5_error_leaves_set_unchanged_witness :
    (SetMetric stdLib 0 Cache.empty Examples.hostSet "up" (Value.bool true) GAUGE).err ≠ none ∧
    (SetMetric stdLib 0 Cache.empty Examples.hostSet "up" (Value.bool true) GAUGE).ms
      = Examples.hostSet :=
  ⟨by decide!,
    (C5_error_leaves_set_unchanged stdLib 0 Cache.empty Examples.hostSet "up" (Value.bool true)
      GAUGE (by decide!)).1⟩

/-- C6: for every kind tag outside `0..3` (not GAUGE, RATE, DELTA or ATTRIBUTE) and every name
and value, `SetMetric` fails with the unknown-source-type error naming the metric, and neither
the sample cache nor the set changes. -/
theorem C6_unknown_source_type (go : GoLib) (now : Int) (cache : Cache) (ms : MetricSet)
    (name : String) (value : Value) (kind : SourceType)
    (hkind : kind < 0 ∨ 3 < kind) :
    (SetMetric go now cache ms name value kind).err
      = some ("Unknown source type for key " ++ name) ∧
    (SetMetric go now cache ms name value kind).cache = cache ∧
    (SetMetric go now cache ms name value kind).ms = ms := by
  have h0 : ¬ (kind = GAUGE) := by intro h; subst h; revert hkind; decide
  have h1 : ¬ (kind = RATE) := by intro h; subst h; revert hkind; decide
  have h2 : ¬ (kind = DELTA) := by intro h; subst h; revert hkind; decide
  have h3 : ¬ (kind = ATTRIBUTE) := by intro h; subst h; revert hkind; decide
  simp [SetMetric, h0, h1, h2, h3]

/-- Witness of C6: the kind tag 4 with a numeric value on a cache that has an entry. -/
theorem C6_unknown_source_type_witness :
    ((4 : SourceType) < 0 ∨ 3 < (4 : SourceType)) ∧
    (SetMetric stdLib 9 Examples.cpuFirst.cache Examples.cpuFirst.ms "cpu" (Value.int 30) 4).err
      = some "Unknown source type for key cpu" ∧
    (SetMetric stdLib 9 Examples.cpuFirst.cache Examples.cpuFirst.ms "cpu" (Value.int 30) 4).cache
      = Examples.cpuFirst.cache ∧
    (SetMetric stdLib 9 Examples.cpuFirst.cache Examples.cpuFirst.ms "cpu" (Value.int 30) 4).ms
      = Examples.cpuFirst.ms :=
  have h := C6_unknown_source_type stdLib 9 Examples.cpuFirst.cache Examples.cpuFirst.ms "cpu"
    (Value.int 30) 4 (Or.inr (by decide))
  ⟨Or.inr (by decide), h.1.trans (by decide!), h.2.1, h.2.2⟩

/-! ## GAUGE, ATTRIBUTE and the numeric check -/

/-- C7 fails as stated: the string "3.5" submitted as GAUGE is accepted (its text parses to the
float 3.5), but the entry stored under the name is the string "3.5", not the parsed float. -/
theorem C7_counterexample :
    stdLib.parseFloat (stdLib.sprintV (Value.str "3.5")) = some (F64.fin false (7 * 2 ^ 1073)) ∧
    (SetMetric stdLib 0 Cache.empty MetricSet.empty "load" (Value.str "3.5") GAUGE).err = none ∧
    (SetMetric stdLib 0 Cache.empty MetricSet.empty "load" (Value.str "3.5") GAUGE).ms "load"
      = some (Value.str "3.5") ∧
    (SetMetric stdLib 0 Cache.empty MetricSet.empty "load" (Value.str "3.5") GAUGE).ms "load"
      ≠ some (Value.float (F64.fin false (7 * 2 ^ 1073))) := by
  decide!

/-- C7 (amended): for every value whose text form parses as a 64-bit float, `SetMetric` with
kind GAUGE returns no error and the entry stored under the name is the submitted value itself,
as-is (a numeric string stays a string). -/
theorem C7_gauge_stored_as_is (go : GoLib) (now : Int) (cache : Cache) (ms : MetricSet)
    (name : String) (value : Value) (f : F64)
    (hread : go.parseFloat (go.sprintV value) = some f) :
    (SetMetric go now cache ms name value GAUGE).err = none ∧
    (SetMetric go now cache ms name value GAUGE).ms name = some value := by
  have hnum := isNumeric_of_parse go value f hread
  simp [SetMetric, hnum, GAUGE, RATE, DELTA, MetricSet.insert]

/-- Witness of C7 (amended): the string "3.5" and the integer 7 submitted as GAUGE. -/
theorem C7_gauge_stored_as_is_witness :
    stdLib.parseFloat (stdLib.sprintV (Value.str "3.5")) = some (F64.fin false (7 * 2 ^ 1073)) ∧
    (SetMetric stdLib 0 Cache.empty MetricSet.empty "load" (Value.str "3.5") GAUGE).err = none ∧
    (SetMetric stdLib 0 Cache.empty MetricSet.empty "load" (Value.str "3.5") GAUGE).ms "load"
      = some (Value.str "3.5") ∧
    (SetMetric stdLib 0 Cache.empty MetricSet.empty "n" (Value.int 7) GAUGE).ms "n"
      = some (Value.int 7) :=
  have h := C7_gauge_stored_as_is stdLib 0 Cache.empty MetricSet.empty "load" (Value.str "3.5")
    (F64.fin false (7 * 2 ^ 1073)) (by decide!)
  ⟨by decide!, h.1, h.2,
    (C7_gauge_stored_as_is stdLib 0 Cache.empty MetricSet.empty "n" (Value.int 7) (F64.ofInt 7)
      (by decide!)).2⟩

/-- C8: `SetMetric` with kind ATTRIBUTE returns no error exactly when the value is a string;
then the entry under the name is that string; every non-string value, in particular every
integer and every float, is rejected with the invalid-attribute error naming the metric. -/
theorem C8_attribute_iff_string (go : GoLib) (now : Int) (cache : Cache) (ms : MetricSet)
    (name : String) (value : Value) :
    ((SetMetric go now cache ms name value ATTRIBUTE).err = none ↔ ∃ s, value = Value.str s) ∧
    (∀ s, value = Value.str s →
      (SetMetric go now cache ms name value ATTRIBUTE).ms name = some (Value.str s)) ∧
    ((¬ ∃ s, value = Value.str s) →
      (SetMetric go now cache ms name value ATTRIBUTE).err
        = some ("Invalid data type for attribute " ++ name)) ∧
    (∀ i, (SetMetric go now cache ms name (Value.int i) ATTRIBUTE).err
        = some ("Invalid data type for attribute " ++ name)) ∧
    (∀ x, (SetMetric go now cache ms name (Value.float x) ATTRIBUTE).err
        = some ("Invalid data type for attribute " ++ name)) := by
  refine ⟨?_, ?_, ?_, ?_, ?_⟩
  · cases value <;> simp [SetMetric, GAUGE, RATE, DELTA, ATTRIBUTE]
  · intro s hs
    subst hs
    simp [SetMetric, GAUGE, RATE, DELTA, ATTRIBUTE, MetricSet.insert]
  · intro hns
    cases value <;> simp [SetMetric, GAUGE, RATE, DELTA, ATTRIBUTE] at hns ⊢
  · intro i
    simp [SetMetric, GAUGE, RATE, DELTA, ATTRIBUTE]
  · intro x
    simp [SetMetric, GAUGE, RATE, DELTA, ATTRIBUTE]

/-- Witness of C8: the string "net" is accepted and stored; the integer 5 is rejected. -/
theorem C8_attribute_iff_string_witness :
    (SetMetric stdLib 0 Cache.empty MetricSet.empty "event_type" (Value.str "net") ATTRIBUTE).err
      = none ∧
    (SetMetric stdLib 0 Cache.empty MetricSet.empty "event_type" (Value.str "net") ATTRIBUTE).ms
      "event_type" = some (Value.str "net") ∧
    (¬ ∃ s, Value.int 5 = Value.str s) ∧
    (SetMetric stdLib 0 Cache.empty MetricSet.empty "tag" (Value.int 5) ATTRIBUTE).err
      = some "Invalid data type for attribute tag" :=
  have hstr := C8_attribute_iff_string stdLib 0 Cache.empty MetricSet.empty "event_type"
    (Value.str "net")
  have hint := C8_attribute_iff_string stdLib 0 Cache.empty MetricSet.empty "tag" (Value.int 5)
  have hno : ¬ ∃ s, Value.int 5 = Value.str s := fun ⟨_, h⟩ => Value.noConfusion h
  ⟨hstr.1.mpr ⟨"net", rfl⟩, hstr.2.1 "net" rfl, hno, (hint.2.2.1 hno).trans (by decide!)⟩

/-- C9: for every kind in GAUGE, RATE, DELTA and every value whose text form does not parse as
a 64-bit float, `SetMetric` fails with the non-numeric invalid-type error naming the metric;
and the numeric check passes on every value whose text form parses. -/
theorem C9_non_numeric_rejected (go : GoLib) (now : Int) (cache : Cache) (ms : MetricSet)
    (name : String) (value : Value) (kind : SourceType)
    (hkind : kind = GAUGE ∨ kind = RATE ∨ kind = DELTA)
    (hbad : go.parseFloat (go.sprintV value) = none) :
    (SetMetric go now cache ms name value kind).err
      = some ("Invalid (non-numeric) data type for metric " ++ name) ∧
    (∀ (w : Value) (f : F64), go.parseFloat (go.sprintV w) = some f → isNumeric go w = true) := by
  have hnum := not_isNumeric_of_parse go value hbad
  refine ⟨?_, fun w f h => isNumeric_of_parse go w f h⟩
  rcases hkind with rfl | rfl | rfl <;> simp [SetMetric, hnum, GAUGE, RATE, DELTA]

/-- Witness of C9: a boolean, nil, a struct and the string "abc" do not parse; the boolean is
rejected as GAUGE and the string "abc" as RATE. -/
theorem C9_non_numeric_rejected_witness :
    stdLib.parseFloat (stdLib.sprintV (Value.bool true)) = none ∧
    stdLib.parseFloat (stdLib.sprintV Value.nil) = none ∧
    stdLib.parseFloat (stdLib.sprintV (Value.other "\x7b1 2\x7d")) = none ∧
    stdLib.parseFloat (stdLib.sprintV (Value.str "abc")) = none ∧
    (SetMetric stdLib 0 Cache.empty MetricSet.empty "up" (Value.bool true) GAUGE).err
      = some "Invalid (non-numeric) data type for metric up" ∧
    (SetMetric stdLib 0 Cache.empty MetricSet.empty "up" (Value.str "abc") RATE).err
      = some "Invalid (non-numeric) data type for metric up" ∧
    isNumeric stdLib (Value.str "3.5") = true :=
  have hb := C9_non_numeric_rejected stdLib 0 Cache.empty MetricSet.empty "up" (Value.bool true)
    GAUGE (Or.inl rfl) (by decide!)
  have hs := C9_non_numeric_rejected stdLib 0 Cache.empty MetricSet.empty "up" (Value.str "abc")
    RATE (Or.inr (Or.inl rfl)) (by decide!)
  ⟨by decide!, by decide!, by decide!, by decide!, hb.1.trans (by decide!),
    hs.1.trans (by decide!),
    hb.2 (Value.str "3.5") (F64.fin false (7 * 2 ^ 1073)) (by decide!)⟩

/-! ## The cache key -/

/-- C10: the cache key of a name is `entityName ++ "_" ++ event_type ++ "_" ++ name` when the
set holds string entries under both "entityName" and "event_type", and the bare name in every
other case (either entry absent or not a string). -/
theorem C10_cacheKey_cases (ms : MetricSet) (n : String) :
    (∀ e t, ms "entityName" = some (Value.str e) → ms "event_type" = some (Value.str t) →
      cacheKey ms n = e ++ "_" ++ t ++ "_" ++ n) ∧
    (((¬ ∃ e, ms "entityName" = some (Value.str e)) ∨ (¬ ∃ t, ms "event_type" = some (Value.str t))) →
      cacheKey ms n = n) := by
  constructor
  · intro e t he ht
    simp [cacheKey, he, ht]
  · intro h
    unfold cacheKey
    split
    · rename_i e t he ht
      rcases h with h | h
      · exact absurd ⟨e, he⟩ h
      · exact absurd ⟨t, ht⟩ h
    · rfl

/-- Witness of C10: both entries strings; no entry at all; `entityName` not a string. -/
theorem C10_cacheKey_cases_witness :
    Examples.hostSet "entityName" = some (Value.str "host1") ∧
    Examples.hostSet "event_type" = some (Value.str "net") ∧
    cacheKey Examples.hostSet "bytes" = "host1_net_bytes" ∧
    cacheKey MetricSet.empty "bytes" = "bytes" ∧
    Examples.oddSet "entityName" = some (Value.int 5) ∧
    cacheKey Examples.oddSet "bytes" = "bytes" :=
  ⟨by decide!, by decide!,
    ((C10_cacheKey_cases Examples.hostSet "bytes").1 "host1" "net" (by decide!) (by decide!)).trans
      (by decide!),
    (C10_cacheKey_cases MetricSet.empty "bytes").2
      (Or.inl (fun ⟨_, h⟩ => Option.noConfusion h)),
    by decide!,
    (C10_cacheKey_cases Examples.oddSet "bytes").2
      (Or.inl (fun ⟨e, h⟩ =>
        Value.noConfusion (Option.some.inj ((show Examples.oddSet "entityName"
          = some (Value.int 5) by decide!).symm.trans h))))⟩

/-! ## Further facts used below -/

theorem F64.ge_imp_not_lt (a b : F64) (h : F64.ge a b = true) : F64.lt a b = false := by
  cases a <;> cases b <;> simp_all [F64.ge]

theorem F64.not_lt_iff_ge (a b : F64) (ha : a ≠ F64.nan) (hb : b ≠ F64.nan) :
    F64.lt a b = false ↔ F64.ge a b = true := by
  cases a <;> cases b <;> simp_all [F64.ge]

/-- A rounded value with a positive sign is never below zero. -/
theorem F64.round_pos_not_lt_zero (N D : Nat) :
    F64.lt (F64.round false N D) F64.zero = false := by
  unfold F64.round
  by_cases h : F64.overflow ≤ F64.roundMag N D
  · rw [if_pos h]; rfl
  · rw [if_neg h]
    simp [F64.lt, F64.zero, F64.signed]

/-- The conversion of a non-zero integer is an infinity or a non-zero finite value of its sign. -/
theorem F64.ofInt_ne_zero (d : Int) (hd : d ≠ 0) :
    F64.ofInt d = F64.inf (decide (d < 0)) ∨
      ∃ k, 0 < k ∧ F64.ofInt d = F64.fin (decide (d < 0)) k := by
  unfold F64.ofInt
  rw [if_neg hd]
  apply F64.round_one_pos
  have hone : 0 < F64.one := by unfold F64.one; positivity
  exact Nat.mul_pos (Int.natAbs_pos.mpr hd) hone

/-- Dividing a value that is not below zero by a positive integer gives a value that is not
below zero. -/
theorem F64.div_pos_not_lt_zero (x : F64) (d : Int) (hx : F64.lt x F64.zero = false)
    (hd : 0 < d) : F64.lt (F64.div x (F64.ofInt d)) F64.zero = false := by
  have hneg : decide (d < 0) = false := by simp; omega
  rcases F64.ofInt_ne_zero d (by omega) with h | ⟨k, hk, h⟩ <;> rw [h, hneg]
  · cases x with
    | nan => rfl
    | inf s => rfl
    | fin s m => simp [F64.div, F64.lt, F64.zero, F64.signed]
  · cases x with
    | nan => rfl
    | inf s =>
      simp only [F64.lt, F64.zero] at hx
      subst hx
      rfl
    | fin s m =>
      have hk0 : k ≠ 0 := by omega
      simp only [F64.div, if_neg hk0]
      by_cases hm : m = 0
      · rw [if_pos hm]; simp [F64.lt, F64.zero, F64.signed]
      · rw [if_neg hm]
        have hs : s = false := by
          cases s
          · rfl
          · simp [F64.lt, F64.zero, F64.signed] at hx
            omega
        subst hs
        exact F64.round_pos_not_lt_zero _ _

/-- Dividing a zero by a non-zero integer gives a zero. -/
theorem F64.zero_div_ofInt (s : Bool) (d : Int) (hd : d ≠ 0) :
    ∃ z, F64.div (F64.fin s 0) (F64.ofInt d) = F64.fin z 0 := by
  rcases F64.ofInt_ne_zero d hd with h | ⟨k, hk, h⟩ <;> rw [h]
  · exact ⟨_, rfl⟩
  · have hk0 : k ≠ 0 := by omega
    refine ⟨xor s (decide (d < 0)), ?_⟩
    simp [F64.div, hk0]

/-- A list is split in one way only at the first occurrence of `a`. -/
theorem split_first_unique {α : Type} (a : α) :
    ∀ (l1 l2 r1 r2 : List α), a ∉ l1 → a ∉ l2 → l1 ++ a :: r1 = l2 ++ a :: r2 →
      l1 = l2 ∧ r1 = r2 := by
  intro l1
  induction l1 with
  | nil =>
    intro l2 r1 r2 _ h2 h
    cases l2 with
    | nil => simpa using h
    | cons b l2 =>
      simp only [List.nil_append, List.cons_append, List.cons.injEq] at h
      exact absurd (h.1 ▸ List.mem_cons_self _ _) h2
  | cons c l1 ih =>
    intro l2 r1 r2 h1 h2 h
    cases l2 with
    | nil =>
      simp only [List.nil_append, List.cons_append, List.cons.injEq] at h
      exact absurd (h.1 ▸ List.mem_cons_self _ _) h1
    | cons b l2 =>
      simp only [List.cons_append, List.cons.injEq] at h
      have := ih l2 r1 r2 (fun hm => h1 (List.mem_cons_of_mem _ hm))
        (fun hm => h2 (List.mem_cons_of_mem _ hm)) h.2
      exact ⟨by rw [h.1, this.1], this.2⟩

/-- The cache key of a set holding string entries under both reserved names. -/
theorem cacheKey_of_strings (ms : MetricSet) (n e t : String)
    (he : ms "entityName" = some (Value.str e)) (ht : ms "event_type" = some (Value.str t)) :
    cacheKey ms n = e ++ "_" ++ t ++ "_" ++ n := by
  simp [cacheKey, he, ht]

/-- The cache key only depends on the entries under the two reserved names. -/
theorem cacheKey_congr (ms1 ms2 : MetricSet) (n : String)
    (he : ms2 "entityName" = ms1 "entityName") (ht : ms2 "event_type" = ms1 "event_type") :
    cacheKey ms2 n = cacheKey ms1 n := by
  simp [cacheKey, he, ht]

/-- The set after `SetMetric` agrees with the set before on every other name. -/
theorem SetMetric_ms_other (go : GoLib) (now : Int) (cache : Cache) (ms : MetricSet)
    (name : String) (value : Value) (kind : SourceType) (k : String) (hk : k ≠ name) :
    (SetMetric go now cache ms name value kind).ms k = ms k := by
  unfold SetMetric
  split_ifs
  · rfl
  · dsimp only
    split
    · rfl
    · exact insert_other ms name k _ hk
  · rfl
  · exact insert_other ms name k _ hk
  · split
    · exact insert_other ms name k _ hk
    · rfl
  · rfl

/-! ## Cache key collisions, the scenario, the reserved entry -/

/-- C11 fails as stated: the sets with (entityName, event_type) = ("a_b", "c") and ("a", "b_c")
hold different pairs and yet have the same cache key for the name "x". -/
theorem C11_counterexample :
    Examples.clashSetA "entityName" = some (Value.str "a_b") ∧
    Examples.clashSetA "event_type" = some (Value.str "c") ∧
    Examples.clashSetB "entityName" = some (Value.str "a") ∧
    Examples.clashSetB "event_type" = some (Value.str "b_c") ∧
    ("a_b", "c") ≠ ("a", "b_c") ∧
    cacheKey Examples.clashSetA "x" = "a_b_c_x" ∧
    cacheKey Examples.clashSetA "x" = cacheKey Examples.clashSetB "x" := by
  decide!

/-- C11 (amended): for every metric name and every two sets that both hold string entityName
and event_type entries, if their (entityName, event_type) pairs differ and the separator `_`
occurs in neither entityName (or in neither event_type), their cache keys for the name
differ. -/
theorem C11_cacheKey_separates (ms1 ms2 : MetricSet) (n e1 t1 e2 t2 : String)
    (h1e : ms1 "entityName" = some (Value.str e1)) (h1t : ms1 "event_type" = some (Value.str t1))
    (h2e : ms2 "entityName" = some (Value.str e2)) (h2t : ms2 "event_type" = some (Value.str t2))
    (hdiff : (e1, t1) ≠ (e2, t2))
    (hsep : ('_' ∉ e1.data ∧ '_' ∉ e2.data) ∨ ('_' ∉ t1.data ∧ '_' ∉ t2.data)) :
    cacheKey ms1 n ≠ cacheKey ms2 n := by
  intro h
  rw [cacheKey_of_strings ms1 n e1 t1 h1e h1t, cacheKey_of_strings ms2 n e2 t2 h2e h2t] at h
  have hd := congrArg String.data h
  have hu : ("_" : String).data = ['_'] := rfl
  simp only [String.data_append, hu] at hd
  have hcore : e1.data ++ '_' :: t1.data = e2.data ++ '_' :: t2.data := by
    have := List.append_cancel_right hd
    have := List.append_cancel_right this
    simpa using this
  have hboth : e1.data = e2.data ∧ t1.data = t2.data := by
    rcases hsep with ⟨ha, hb⟩ | ⟨ha, hb⟩
    · exact split_first_unique '_' _ _ _ _ ha hb hcore
    · have hrev := congrArg List.reverse hcore
      simp only [List.reverse_append, List.reverse_cons, List.append_assoc,
        List.singleton_append] at hrev
      have := split_first_unique '_' _ _ _ _ (by simpa using ha) (by simpa using hb) hrev
      exact ⟨List.reverse_injective this.2, List.reverse_injective this.1⟩
  exact hdiff (by rw [String.ext hboth.1, String.ext hboth.2])

/-- Witness of C11 (amended): ("host1", "net") against ("host2", "net"). -/
theorem C11_cacheKey_separates_witness :
    Examples.hostSet "entityName" = some (Value.str "host1") ∧
    Examples.hostSet "event_type" = some (Value.str "net") ∧
    (("host1", "net") : String × String) ≠ ("host2", "net") ∧
    cacheKey Examples.hostSet "bytes" ≠
      cacheKey ((MetricSet.empty.insert "event_type" (Value.str "net")).insert "entityName"
        (Value.str "host2")) "bytes" :=
  ⟨by decide!, by decide!, by decide,
    C11_cacheKey_separates Examples.hostSet
      ((MetricSet.empty.insert "event_type" (Value.str "net")).insert "entityName"
        (Value.str "host2")) "bytes" "host1" "net" "host2" "net"
      (by decide!) (by decide!) (by decide!) (by decide!) (by decide)
      (Or.inl ⟨by decide, by decide⟩)⟩

/-- C12: from an empty cache, with the set built by `NewMetricSet("net")` and entityName set to
"host1": 100 as DELTA under "bytes" at time 0 succeeds and stores 0; 150 at time 5 succeeds and
stores 50; 120 at time 10 fails with the counter-reset error and the set still holds 50. -/
theorem C12_bytes_scenario :
    Examples.netSet "event_type" = some (Value.str "net") ∧
    Examples.netSet "entityName" = some (Value.str "host1") ∧
    Examples.bytesStep1.err = none ∧
    Examples.bytesStep1.ms "bytes" = some (Value.float F64.zero) ∧
    Examples.bytesStep2.err = none ∧
    Examples.bytesStep2.ms "bytes" = some (Value.float (F64.ofInt 50)) ∧
    Examples.bytesStep3.err = some "Source for host1_net_bytes was reseted, skipping sampling" ∧
    Examples.bytesStep3.ms "bytes" = some (Value.float (F64.ofInt 50)) ∧
    F64.ofInt 50 = F64.fin false (50 * F64.one) := by
  decide!

/-- C13 fails as stated: on the set built by `NewMetricSet("net")`, the integer 5 submitted as
GAUGE under the name "event_type" succeeds and leaves a non-string entry under "event_type". -/
theorem C13_counterexample :
    hasEventType (NewMetricSet stdLib 0 Cache.empty "net").1 = true ∧
    (SetMetric stdLib 0 Cache.empty (NewMetricSet stdLib 0 Cache.empty "net").1 "event_type"
      (Value.int 5) GAUGE).err = none ∧
    (SetMetric stdLib 0 Cache.empty (NewMetricSet stdLib 0 Cache.empty "net").1 "event_type"
      (Value.int 5) GAUGE).ms "event_type" = some (Value.int 5) ∧
    hasEventType (SetMetric stdLib 0 Cache.empty (NewMetricSet stdLib 0 Cache.empty "net").1
      "event_type" (Value.int 5) GAUGE).ms = false := by
  decide!

/-- C13 (amended): `NewMetricSet(e)` returns a set whose "event_type" entry is the string `e`,
and the presence of a string under "event_type" is preserved by every `SetMetric` call whose
name is not "event_type" or whose kind is ATTRIBUTE. -/
theorem C13_event_type_preserved (go : GoLib) (now : Int) (cache : Cache) (ms : MetricSet)
    (name : String) (value : Value) (kind : SourceType) (e : String)
    (hinv : hasEventType ms = true)
    (hcall : name ≠ "event_type" ∨ kind = ATTRIBUTE) :
    (NewMetricSet go now cache e).1 "event_type" = some (Value.str e) ∧
    hasEventType (NewMetricSet go now cache e).1 = true ∧
    hasEventType (SetMetric go now cache ms name value kind).ms = true := by
  have hnew : (NewMetricSet go now cache e).1 "event_type" = some (Value.str e) := by
    simp [NewMetricSet, SetMetric, GAUGE, RATE, DELTA, ATTRIBUTE, MetricSet.insert]
  refine ⟨hnew, by simp [hasEventType, hnew], ?_⟩
  by_cases hn : name = "event_type"
  · have hk : kind = ATTRIBUTE := by
      rcases hcall with h | h
      · exact absurd hn h
      · exact h
    subst hn hk
    cases value <;>
      simp [SetMetric, GAUGE, RATE, DELTA, ATTRIBUTE, hasEventType, MetricSet.insert] <;>
      exact hinv
  · have hk : "event_type" ≠ name := fun h => hn h.symm
    unfold hasEventType
    rw [SetMetric_ms_other go now cache ms name value kind "event_type" hk]
    exact hinv

/-- Witness of C13 (amended): a gauge written under "load" on the set of `NewMetricSet("net")`. -/
theorem C13_event_type_preserved_witness :
    hasEventType (NewMetricSet stdLib 0 Cache.empty "net").1 = true ∧
    ("load" ≠ "event_type" ∨ GAUGE = ATTRIBUTE) ∧
    (NewMetricSet stdLib 0 Cache.empty "net").1 "event_type" = some (Value.str "net") ∧
    hasEventType (SetMetric stdLib 0 Cache.empty (NewMetricSet stdLib 0 Cache.empty "net").1
      "load" (Value.int 7) GAUGE).ms = true :=
  have h := C13_event_type_preserved stdLib 0 Cache.empty
    (NewMetricSet stdLib 0 Cache.empty "net").1 "load" (Value.int 7) GAUGE "net" (by decide!)
    (Or.inl (by decide))
  ⟨by decide!, Or.inl (by decide), h.1, h.2.2⟩

/-! ## Effects on the cache and on the set -/

/-- The cache after a RATE or DELTA submission of a numeric value. -/
theorem SetMetric_cache_sampling (go : GoLib) (now : Int) (cache : Cache) (ms : MetricSet)
    (name : String) (value : Value) (kind : SourceType) (v : F64)
    (hk : kind = RATE ∨ kind = DELTA) (hp : go.parseFloat (go.sprintV value) = some v) :
    (SetMetric go now cache ms name value kind).cache
      = (cache.Set now (cacheKey ms name) v).1 := by
  have hn := isNumeric_of_parse go value v hp
  rw [SetMetric_sampling go now cache ms name value kind hk hn]
  cases hc : cache (cacheKey ms name) with
  | none => rw [sample_unseen go now cache ms name value kind v hp hc]
  | some e =>
    obtain ⟨v1, t1⟩ := e
    rw [sample_seen go now cache ms name value kind v v1 t1 hp hc]
    split_ifs <;> rfl

/-- C14: for every RATE or DELTA submission of a numeric value `v`, whatever the outcome, the
cache entry of the metric's key after the call is `(v, newTimestamp)`; hence a later sampling
step for that key is computed against `v` and that timestamp. -/
theorem C14_cache_always_advances (go : GoLib) (now : Int) (cache : Cache) (ms : MetricSet)
    (name : String) (value : Value) (kind : SourceType) (v : F64)
    (hkind : kind = RATE ∨ kind = DELTA)
    (hread : go.parseFloat (go.sprintV value) = some v) :
    (SetMetric go now cache ms name value kind).cache (cacheKey ms name) = some (v, now) ∧
    (∀ (now2 : Int) (ms2 : MetricSet) (name2 : String) (value2 : Value) (kind2 : SourceType)
        (v2 : F64),
      cacheKey ms2 name2 = cacheKey ms name →
      go.parseFloat (go.sprintV value2) = some v2 →
      ((sample go now2 (SetMetric go now cache ms name value kind).cache ms2 name2 value2
          kind2).err
        = (if wrapInt64 (now2 - now) = 0 then
            some ("Samples for " ++ cacheKey ms name ++ " are too close in time, skipping sampling")
          else if F64.lt (F64.sub v2 v) F64.zero then
            some ("Source for " ++ cacheKey ms name ++ " was reseted, skipping sampling")
          else none) ∧
      (sample go now2 (SetMetric go now cache ms name value kind).cache ms2 name2 value2
          kind2).value
        = (if wrapInt64 (now2 - now) = 0 then F64.zero
          else if F64.lt (F64.sub v2 v) F64.zero then F64.zero
          else if kind2 = DELTA then F64.sub v2 v
          else F64.div (F64.sub v2 v) (F64.ofInt (wrapInt64 (now2 - now)))))) := by
  have hc := SetMetric_cache_sampling go now cache ms name value kind v hkind hread
  have hentry : (SetMetric go now cache ms name value kind).cache (cacheKey ms name)
      = some (v, now) := by
    rw [hc]; exact cache_Set_same cache now _ v
  refine ⟨hentry, ?_⟩
  intro now2 ms2 name2 value2 kind2 v2 hkey hp2
  have hentry2 : (SetMetric go now cache ms name value kind).cache (cacheKey ms2 name2)
      = some (v, now) := by rw [hkey]; exact hentry
  rw [sample_seen go now2 _ ms2 name2 value2 kind2 v2 v now hp2 hentry2, hkey]
  constructor <;> split_ifs <;> rfl

/-- Witness of C14: after the rejected lower reading 3 at time 7 (too close to the reading 5 at
time 7), the cache entry is (3, 7), and the reading 4 at time 9 is sampled against 3. -/
theorem C14_cache_always_advances_witness :
    (DELTA = RATE ∨ DELTA = DELTA) ∧
    stdLib.parseFloat (stdLib.sprintV (Value.int 3)) = some (F64.ofInt 3) ∧
    (SetMetric stdLib 7 Examples.dropFirst.cache Examples.dropFirst.ms "cpu" (Value.int 3)
      DELTA).err = some "Samples for cpu are too close in time, skipping sampling" ∧
    (SetMetric stdLib 7 Examples.dropFirst.cache Examples.dropFirst.ms "cpu" (Value.int 3)
      DELTA).cache (cacheKey Examples.dropFirst.ms "cpu") = some (F64.ofInt 3, 7) ∧
    (sample stdLib 9 (SetMetric stdLib 7 Examples.dropFirst.cache Examples.dropFirst.ms "cpu"
      (Value.int 3) DELTA).cache Examples.dropFirst.ms "cpu" (Value.int 4) DELTA).value
        = F64.ofInt 1 :=
  have h := C14_cache_always_advances stdLib 7 Examples.dropFirst.cache Examples.dropFirst.ms
    "cpu" (Value.int 3) DELTA (F64.ofInt 3) (Or.inr rfl) (by decide!)
  ⟨Or.inr rfl, by decide!, by decide!, h.1,
    (h.2 9 Examples.dropFirst.ms "cpu" (Value.int 4) DELTA (F64.ofInt 4) rfl (by decide!)).2.trans
      (by decide!)⟩

/-- C15: a `SetMetric` call of kind GAUGE or ATTRIBUTE leaves the cache unchanged; so does a
RATE or DELTA call rejected as non-numeric; a RATE or DELTA call with a numeric value leaves
every cache entry other than that of its own key unchanged. -/
theorem C15_cache_frame (go : GoLib) (now : Int) (cache : Cache) (ms : MetricSet)
    (name : String) (value : Value) (kind : SourceType) :
    ((kind = GAUGE ∨ kind = ATTRIBUTE) →
      (SetMetric go now cache ms name value kind).cache = cache) ∧
    ((kind = RATE ∨ kind = DELTA) → isNumeric go value = false →
      (SetMetric go now cache ms name value kind).err
          = some ("Invalid (non-numeric) data type for metric " ++ name) ∧
        (SetMetric go now cache ms name value kind).cache = cache) ∧
    ((kind = RATE ∨ kind = DELTA) → isNumeric go value = true →
      ∀ k, k ≠ cacheKey ms name → (SetMetric go now cache ms name value kind).cache k = cache k) := by
  refine ⟨?_, ?_, ?_⟩
  · rintro (rfl | rfl)
    · cases hn : isNumeric go value <;> simp [SetMetric, hn, GAUGE, RATE, DELTA]
    · cases value <;> simp [SetMetric, GAUGE, RATE, DELTA, ATTRIBUTE]
  · intro hk hn
    simp [SetMetric, hk, hn]
  · intro hk hn k hne
    obtain ⟨v, hp⟩ := parse_of_isNumeric go value hn
    rw [SetMetric_cache_sampling go now cache ms name value kind v hk hp]
    exact cache_Set_other cache now _ k v hne

/-- Witness of C15: a gauge leaves the cache of the first "cpu" sample unchanged; a second
sample under "cpu" leaves the (absent) entry of the key "mem" unchanged. -/
theorem C15_cache_frame_witness :
    (GAUGE = GAUGE ∨ GAUGE = ATTRIBUTE) ∧
    (SetMetric stdLib 3 Examples.cpuFirst.cache Examples.cpuFirst.ms "load" (Value.int 7)
      GAUGE).cache = Examples.cpuFirst.cache ∧
    (RATE = RATE ∨ RATE = DELTA) ∧
    isNumeric stdLib (Value.int 30) = true ∧
    "mem" ≠ cacheKey Examples.cpuFirst.ms "cpu" ∧
    (SetMetric stdLib 10 Examples.cpuFirst.cache Examples.cpuFirst.ms "cpu" (Value.int 30)
      RATE).cache "mem" = Examples.cpuFirst.cache "mem" :=
  ⟨Or.inl rfl,
    (C15_cache_frame stdLib 3 Examples.cpuFirst.cache Examples.cpuFirst.ms "load" (Value.int 7)
      GAUGE).1 (Or.inl rfl),
    Or.inl rfl, by decide!, by decide!,
    (C15_cache_frame stdLib 10 Examples.cpuFirst.cache Examples.cpuFirst.ms "cpu" (Value.int 30)
      RATE).2.2 (Or.inl rfl) (by decide!) "mem" (by decide!)⟩

/-- C16: a successful `SetMetric` call writes exactly one entry of the set: afterwards the
entry under the name is the new value (the sampled float for RATE and DELTA, the submitted
value otherwise), whatever was there before, and every entry under another name is unchanged. -/
theorem C16_one_entry_written (go : GoLib) (now : Int) (cache : Cache) (ms : MetricSet)
    (name : String) (value : Value) (kind : SourceType)
    (hok : (SetMetric go now cache ms name value kind).err = none) :
    (SetMetric go now cache ms name value kind).ms name
      = some (if kind = RATE ∨ kind = DELTA then
          Value.float (sample go now cache ms name value kind).value else value) ∧
    (∀ k, k ≠ name → (SetMetric go now cache ms name value kind).ms k = ms k) := by
  refine ⟨?_, fun k hk => SetMetric_ms_other go now cache ms name value kind k hk⟩
  by_cases hk : kind = RATE ∨ kind = DELTA
  · rw [if_pos hk]
    cases hn : isNumeric go value with
    | false => simp [SetMetric, hk, hn] at hok
    | true =>
      rw [SetMetric_sampling go now cache ms name value kind hk hn] at hok ⊢
      cases he : (sample go now cache ms name value kind).err with
      | some e => rw [he] at hok; simp at hok
      | none => simp [insert_same]
  · rw [if_neg hk]
    by_cases hg : kind = GAUGE
    · subst hg
      cases hn : isNumeric go value with
      | false => simp [SetMetric, hn, GAUGE, RATE, DELTA] at hok
      | true => simp [SetMetric, hn, GAUGE, RATE, DELTA, MetricSet.insert]
    · by_cases ha : kind = ATTRIBUTE
      · subst ha
        cases value <;>
          simp [SetMetric, GAUGE, RATE, DELTA, ATTRIBUTE, MetricSet.insert] at hok ⊢
      · simp [SetMetric, hk, hg, ha] at hok

/-- Witness of C16: the second "cpu" sample replaces the 0 stored by the first with 2.0 and
leaves the (absent) entry under "mem" as it was. -/
theorem C16_one_entry_written_witness :
    (SetMetric stdLib 10 Examples.cpuFirst.cache Examples.cpuFirst.ms "cpu" (Value.int 30)
      RATE).err = none ∧
    Examples.cpuFirst.ms "cpu" = some (Value.float F64.zero) ∧
    (SetMetric stdLib 10 Examples.cpuFirst.cache Examples.cpuFirst.ms "cpu" (Value.int 30)
      RATE).ms "cpu" = some (Value.float (F64.ofInt 2)) ∧
    (SetMetric stdLib 10 Examples.cpuFirst.cache Examples.cpuFirst.ms "cpu" (Value.int 30)
      RATE).ms "mem" = Examples.cpuFirst.ms "mem" :=
  have h := C16_one_entry_written stdLib 10 Examples.cpuFirst.cache Examples.cpuFirst.ms "cpu"
    (Value.int 30) RATE (by decide!)
  ⟨by decide!, by decide!, h.1.trans (by decide!), h.2 "mem" (by decide)⟩

/-! ## Classification of a sampling step -/

/-- The error of a RATE or DELTA submission of a numeric value on a key with a cached
reading. -/
theorem SetMetric_err_seen (go : GoLib) (now : Int) (cache : Cache) (ms : MetricSet)
    (name : String) (value : Value) (kind : SourceType) (v v1 : F64) (t1 : Int)
    (hk : kind = RATE ∨ kind = DELTA) (hp : go.parseFloat (go.sprintV value) = some v)
    (hc : cache (cacheKey ms name) = some (v1, t1)) :
    (SetMetric go now cache ms name value kind).err
      = if wrapInt64 (now - t1) = 0 then
          some ("Samples for " ++ cacheKey ms name ++ " are too close in time, skipping sampling")
        else if F64.lt (F64.sub v v1) F64.zero then
          some ("Source for " ++ cacheKey ms name ++ " was reseted, skipping sampling")
        else none := by
  have hn := isNumeric_of_parse go value v hp
  rw [SetMetric_sampling go now cache ms name value kind hk hn,
    sample_seen go now cache ms name value kind v v1 t1 hp hc]
  split_ifs <;> rfl

/-- The value stored by a successful RATE or DELTA submission on a key with a cached reading. -/
theorem SetMetric_ms_seen (go : GoLib) (now : Int) (cache : Cache) (ms : MetricSet)
    (name : String) (value : Value) (kind : SourceType) (v v1 : F64) (t1 : Int)
    (hk : kind = RATE ∨ kind = DELTA) (hp : go.parseFloat (go.sprintV value) = some v)
    (hc : cache (cacheKey ms name) = some (v1, t1))
    (hdur : wrapInt64 (now - t1) ≠ 0) (hlt : F64.lt (F64.sub v v1) F64.zero = false) :
    (SetMetric go now cache ms name value kind).ms name
      = some (Value.float (if kind = DELTA then F64.sub v v1
          else F64.div (F64.sub v v1) (F64.ofInt (wrapInt64 (now - t1))))) := by
  have hn := isNumeric_of_parse go value v hp
  rw [SetMetric_sampling go now cache ms name value kind hk hn,
    sample_seen go now cache ms name value kind v v1 t1 hp hc, if_neg hdur, hlt]
  by_cases hd : kind = DELTA <;> simp [hd, insert_same]

/-- A RATE or DELTA submission of a numeric value on a key without a cached reading. -/
theorem SetMetric_unseen (go : GoLib) (now : Int) (cache : Cache) (ms : MetricSet)
    (name : String) (value : Value) (kind : SourceType) (v : F64)
    (hk : kind = RATE ∨ kind = DELTA) (hp : go.parseFloat (go.sprintV value) = some v)
    (hc : cache (cacheKey ms name) = none) :
    (SetMetric go now cache ms name value kind).err = none ∧
    (SetMetric go now cache ms name value kind).ms name = some (Value.float F64.zero) := by
  have hn := isNumeric_of_parse go value v hp
  rw [SetMetric_sampling go now cache ms name value kind hk hn,
    sample_unseen go now cache ms name value kind v hp hc]
  exact ⟨rfl, insert_same ms name _⟩

/-- C17 fails as stated: after the reading 10 at time 0, the text "NaN" submitted as RATE at
time 10 parses to NaN and the call succeeds, although there is a previous entry and neither
`v >= oldValue` nor `v - oldValue >= 0` holds (nor `v - oldValue < 0`). -/
theorem C17_counterexample :
    Examples.cpuFirst.cache (cacheKey Examples.cpuFirst.ms "cpu") = some (F64.ofInt 10, 0) ∧
    stdLib.parseFloat (stdLib.sprintV (Value.str "NaN")) = some F64.nan ∧
    wrapInt64 (10 - 0) ≠ 0 ∧
    Examples.cpuNaN.err = none ∧
    Examples.cpuNaN.ms "cpu" = some (Value.float F64.nan) ∧
    F64.ge F64.nan (F64.ofInt 10) = false ∧
    F64.ge (F64.sub F64.nan (F64.ofInt 10)) F64.zero = false ∧
    F64.lt (F64.sub F64.nan (F64.ofInt 10)) F64.zero = false := by
  decide!

/-- C17 (amended): for every RATE or DELTA submission of a numeric value `v`, one of four
outcomes occurs, by conditions that exclude each other: Baseline (no previous entry: success,
0), TooClose (previous entry, duration 0), Reset (previous entry, duration not 0,
`v - oldValue < 0`), Sampled (previous entry, duration not 0, not `v - oldValue < 0`: success).
So the call succeeds exactly when there is no previous entry or the duration is not 0 and not
`v < oldValue`, which is `v >= oldValue` when neither reading is NaN; and an unchanged finite
reading with a duration that is not 0 succeeds and stores a zero. -/
theorem C17_sampling_outcomes (go : GoLib) (now : Int) (cache : Cache) (ms : MetricSet)
    (name : String) (value : Value) (kind : SourceType) (v : F64)
    (hkind : kind = RATE ∨ kind = DELTA)
    (hread : go.parseFloat (go.sprintV value) = some v) :
    ((cache (cacheKey ms name) = none ∧
        (SetMetric go now cache ms name value kind).err = none ∧
        (SetMetric go now cache ms name value kind).ms name = some (Value.float F64.zero)) ∨
      (∃ v1 t1, cache (cacheKey ms name) = some (v1, t1) ∧ wrapInt64 (now - t1) = 0 ∧
        (SetMetric go now cache ms name value kind).err
          = some ("Samples for " ++ cacheKey ms name
              ++ " are too close in time, skipping sampling")) ∨
      (∃ v1 t1, cache (cacheKey ms name) = some (v1, t1) ∧ wrapInt64 (now - t1) ≠ 0 ∧
        F64.lt (F64.sub v v1) F64.zero = true ∧
        (SetMetric go now cache ms name value kind).err
          = some ("Source for " ++ cacheKey ms name ++ " was reseted, skipping sampling")) ∨
      (∃ v1 t1, cache (cacheKey ms name) = some (v1, t1) ∧ wrapInt64 (now - t1) ≠ 0 ∧
        F64.lt (F64.sub v v1) F64.zero = false ∧
        (SetMetric go now cache ms name value kind).err = none)) ∧
    ((SetMetric go now cache ms name value kind).err = none ↔
      (cache (cacheKey ms name) = none ∨
        ∃ v1 t1, cache (cacheKey ms name) = some (v1, t1) ∧ wrapInt64 (now - t1) ≠ 0 ∧
          F64.lt v v1 = false)) ∧
    (∀ v1 : F64, v ≠ F64.nan → v1 ≠ F64.nan → (F64.lt v v1 = false ↔ F64.ge v v1 = true)) ∧
    (∀ v1 t1 s m, cache (cacheKey ms name) = some (v1, t1) → wrapInt64 (now - t1) ≠ 0 →
      v = F64.fin s m → F64.eq v v1 = true →
      (SetMetric go now cache ms name value kind).err = none ∧
        ∃ z, (SetMetric go now cache ms name value kind).ms name
          = some (Value.float (F64.fin z 0))) := by
  refine ⟨?_, ?_, fun v1 hv hv1 => F64.not_lt_iff_ge v v1 hv hv1, ?_⟩
  · cases hc : cache (cacheKey ms name) with
    | none => exact Or.inl ⟨rfl, SetMetric_unseen go now cache ms name value kind v hkind hread hc⟩
    | some e =>
      obtain ⟨v1, t1⟩ := e
      have herr := SetMetric_err_seen go now cache ms name value kind v v1 t1 hkind hread hc
      by_cases hd : wrapInt64 (now - t1) = 0
      · rw [if_pos hd] at herr
        exact Or.inr (Or.inl ⟨v1, t1, rfl, hd, herr⟩)
      · rw [if_neg hd] at herr
        cases hl : F64.lt (F64.sub v v1) F64.zero with
        | true =>
          rw [hl, if_pos rfl] at herr
          exact Or.inr (Or.inr (Or.inl ⟨v1, t1, rfl, hd, hl, herr⟩))
        | false =>
          rw [hl] at herr
          exact Or.inr (Or.inr (Or.inr ⟨v1, t1, rfl, hd, hl, by simpa using herr⟩))
  · cases hc : cache (cacheKey ms name) with
    | none =>
      simp [(SetMetric_unseen go now cache ms name value kind v hkind hread hc).1]
    | some e =>
      obtain ⟨v1, t1⟩ := e
      rw [SetMetric_err_seen go now cache ms name value kind v v1 t1 hkind hread hc,
        F64.sub_lt_zero]
      by_cases hd : wrapInt64 (now - t1) = 0
      · simp [hd]
      · cases hl : F64.lt v v1 with
        | true => simp [hd, hl]
        | false =>
          simp only [hd, if_false, Bool.false_eq_true, true_iff]
          exact Or.inr ⟨v1, t1, rfl, hd, hl⟩
  · intro v1 t1 s m hc hd hv heq
    subst hv
    cases v1 with
    | nan => simp [F64.eq] at heq
    | inf t => simp [F64.eq] at heq
    | fin t n =>
      have hs : F64.signed s m = F64.signed t n := by simpa [F64.eq] using heq
      have hsub : F64.sub (F64.fin s m) (F64.fin t n) = F64.fin (s && !t) 0 := by
        simp [F64.sub, hs]
      have hlt : F64.lt (F64.sub (F64.fin s m) (F64.fin t n)) F64.zero = false := by
        rw [hsub]; simp [F64.lt, F64.zero, F64.signed]
      have herr := SetMetric_err_seen go now cache ms name value kind _ _ t1 hkind hread hc
      have hms := SetMetric_ms_seen go now cache ms name value kind _ _ t1 hkind hread hc hd hlt
      rw [if_neg hd, hlt] at herr
      refine ⟨by simpa using herr, ?_⟩
      rw [hms, hsub]
      by_cases hk : kind = DELTA
      · exact ⟨_, by rw [if_pos hk]⟩
      · obtain ⟨z, hz⟩ := F64.zero_div_ofInt (s && !t) (wrapInt64 (now - t1)) hd
        exact ⟨z, by rw [if_neg hk, hz]⟩

/-- Witness of C17 (amended): the unchanged reading 10 submitted as RATE at time 10, after the
reading 10 at time 0, succeeds and stores a zero. -/
theorem C17_sampling_outcomes_witness :
    (RATE = RATE ∨ RATE = DELTA) ∧
    stdLib.parseFloat (stdLib.sprintV (Value.int 10)) = some (F64.ofInt 10) ∧
    Examples.cpuFirst.cache (cacheKey Examples.cpuFirst.ms "cpu") = some (F64.ofInt 10, 0) ∧
    F64.ofInt 10 = F64.fin false (10 * F64.one) ∧
    (SetMetric stdLib 10 Examples.cpuFirst.cache Examples.cpuFirst.ms "cpu" (Value.int 10)
      RATE).err = none ∧
    (∃ z, (SetMetric stdLib 10 Examples.cpuFirst.cache Examples.cpuFirst.ms "cpu" (Value.int 10)
      RATE).ms "cpu" = some (Value.float (F64.fin z 0))) :=
  have h := (C17_sampling_outcomes stdLib 10 Examples.cpuFirst.cache Examples.cpuFirst.ms "cpu"
    (Value.int 10) RATE (F64.ofInt 10) (Or.inl rfl) (by decide!)).2.2.2 (F64.ofInt 10) 0 false
    (10 * F64.one) (by decide!) (by decide) (by decide!) (by decide!)
  ⟨Or.inl rfl, by decide!, by decide!, by decide!, h.1, h.2⟩

/-! ## Sign of the sampled value, shared baseline -/

/-- C18 fails as stated: after the reading 10 at time 0, the text "NaN" submitted as DELTA at
the later time 10 succeeds and stores NaN, and `NaN >= 0` is false. -/
theorem C18_counterexample :
    Examples.cpuFirst.cache (cacheKey Examples.cpuFirst.ms "cpu") = some (F64.ofInt 10, 0) ∧
    (0 : Int) ≤ 10 ∧
    stdLib.parseFloat (stdLib.sprintV (Value.str "NaN")) = some F64.nan ∧
    Examples.cpuNaNDelta.err = none ∧
    Examples.cpuNaNDelta.ms "cpu" = some (Value.float F64.nan) ∧
    F64.ge F64.nan F64.zero = false := by
  decide!

/-- C18 (amended): for every successful RATE or DELTA submission, the value stored in the set
is not below zero (it is `>= 0` unless it is NaN), provided, for RATE, that the new timestamp
is not earlier than the cached one and their difference fits in `int64`
(`newTimestamp - oldTimestamp < 2^63`); for DELTA no assumption on timestamps is needed. A RATE
result can be below zero when the timestamp goes backwards (10 at time 10 then 30 at time 5
stores -4) or when the difference wraps (10 at the least and 30 at the greatest `int64` time
stores -20). -/
theorem C18_sampled_not_negative (go : GoLib) (now : Int) (cache : Cache) (ms : MetricSet)
    (name : String) (value : Value) (kind : SourceType) (v : F64)
    (hkind : kind = RATE ∨ kind = DELTA)
    (hread : go.parseFloat (go.sprintV value) = some v)
    (hok : (SetMetric go now cache ms name value kind).err = none)
    (htime : kind = RATE → ∀ v1 t1, cache (cacheKey ms name) = some (v1, t1) →
      t1 ≤ now ∧ now - t1 < (2 : Int) ^ 63) :
    (∃ x, (SetMetric go now cache ms name value kind).ms name = some (Value.float x) ∧
      F64.lt x F64.zero = false ∧ (x ≠ F64.nan → F64.ge x F64.zero = true)) ∧
    (Examples.lateFirst.cache (cacheKey Examples.lateFirst.ms "cpu") = some (F64.ofInt 10, 10) ∧
      Examples.lateBackwards.err = none ∧
      Examples.lateBackwards.ms "cpu" = some (Value.float (F64.ofInt (-4))) ∧
      F64.lt (F64.ofInt (-4)) F64.zero = true) ∧
    (Examples.farFirst.cache (cacheKey Examples.farFirst.ms "cpu")
        = some (F64.ofInt 10, -9223372036854775808) ∧
      (-9223372036854775808 : Int) ≤ 9223372036854775807 ∧
      Examples.farSecond.err = none ∧
      Examples.farSecond.ms "cpu" = some (Value.float (F64.ofInt (-20))) ∧
      F64.lt (F64.ofInt (-20)) F64.zero = true) := by
  refine ⟨?_, by decide!, by decide!⟩
  have hz : F64.zero ≠ F64.nan := by decide
  have hfin : ∀ x, F64.lt x F64.zero = false → (x ≠ F64.nan → F64.ge x F64.zero = true) :=
    fun x hx hn => (F64.not_lt_iff_ge x F64.zero hn hz).mp hx
  cases hc : cache (cacheKey ms name) with
  | none =>
    have h := SetMetric_unseen go now cache ms name value kind v hkind hread hc
    exact ⟨F64.zero, h.2, by decide, fun _ => by decide⟩
  | some e =>
    obtain ⟨v1, t1⟩ := e
    have herr := SetMetric_err_seen go now cache ms name value kind v v1 t1 hkind hread hc
    rw [hok] at herr
    have hd : wrapInt64 (now - t1) ≠ 0 := by
      intro h0; rw [if_pos h0] at herr; exact Option.noConfusion herr
    rw [if_neg hd] at herr
    have hlt : F64.lt (F64.sub v v1) F64.zero = false := by
      cases hl : F64.lt (F64.sub v v1) F64.zero with
      | false => rfl
      | true => rw [hl, if_pos rfl] at herr; exact Option.noConfusion herr
    have hms := SetMetric_ms_seen go now cache ms name value kind v v1 t1 hkind hread hc hd hlt
    by_cases hk : kind = DELTA
    · rw [if_pos hk] at hms
      exact ⟨_, hms, hlt, hfin _ hlt⟩
    · rw [if_neg hk] at hms
      have hr : kind = RATE := by
        rcases hkind with h | h
        · exact h
        · exact absurd h hk
      obtain ⟨hle, hfit⟩ := htime hr v1 t1 hc
      have hw : wrapInt64 (now - t1) = now - t1 := wrapInt64_sub_fits now t1 hle hfit
      have hpos : 0 < wrapInt64 (now - t1) := by
        have : now - t1 ≠ 0 := by rw [← hw]; exact hd
        rw [hw]; omega
      have hx := F64.div_pos_not_lt_zero (F64.sub v v1) (wrapInt64 (now - t1)) hlt hpos
      exact ⟨_, hms, hx, hfin _ hx⟩

/-- Witness of C18 (amended): 10 at time 0 then 30 at time 10 as RATE stores 2.0, not below 0. -/
theorem C18_sampled_not_negative_witness :
    (RATE = RATE ∨ RATE = DELTA) ∧
    stdLib.parseFloat (stdLib.sprintV (Value.int 30)) = some (F64.ofInt 30) ∧
    (SetMetric stdLib 10 Examples.cpuFirst.cache Examples.cpuFirst.ms "cpu" (Value.int 30)
      RATE).err = none ∧
    ((0 : Int) ≤ 10 ∧ (10 : Int) - 0 < 2 ^ 63) ∧
    (∃ x, (SetMetric stdLib 10 Examples.cpuFirst.cache Examples.cpuFirst.ms "cpu" (Value.int 30)
      RATE).ms "cpu" = some (Value.float x) ∧
      F64.lt x F64.zero = false ∧ (x ≠ F64.nan → F64.ge x F64.zero = true)) :=
  have hc : Examples.cpuFirst.cache (cacheKey Examples.cpuFirst.ms "cpu")
      = some (F64.ofInt 10, 0) := by decide!
  ⟨Or.inl rfl, by decide!, by decide!, ⟨by decide, by decide⟩,
    (C18_sampled_not_negative stdLib 10 Examples.cpuFirst.cache Examples.cpuFirst.ms "cpu"
      (Value.int 30) RATE (F64.ofInt 30) (Or.inl rfl) (by decide!) (by decide!)
      (fun _ v1 t1 h => by
        have ht : t1 = 0 := (Prod.mk.inj (Option.some.inj (hc.symm.trans h))).2.symm
        subst ht
        exact ⟨by decide, by decide⟩)).1⟩

/-- C19 fails as stated: in a set holding the strings "host1" and "net" under "entityName" and
"event_type", the reading 5 submitted as RATE under the name "entityName" at time 0 and then
the reading 8 as DELTA under the same name at time 10: the second call is treated as a first
observation and stores 0, not 8 - 5 = 3. -/
theorem C19_counterexample :
    stdLib.parseFloat (stdLib.sprintV (Value.int 5)) = some (F64.ofInt 5) ∧
    stdLib.parseFloat (stdLib.sprintV (Value.int 8)) = some (F64.ofInt 8) ∧
    F64.ge (F64.ofInt 8) (F64.ofInt 5) = true ∧
    (0 : Int) < 10 ∧
    Examples.shadowFirst.err = none ∧
    cacheKey Examples.hostSet "entityName" = "host1_net_entityName" ∧
    cacheKey Examples.shadowFirst.ms "entityName" = "entityName" ∧
    Examples.shadowSecond.err = none ∧
    Examples.shadowSecond.ms "entityName" = some (Value.float F64.zero) ∧
    F64.sub (F64.ofInt 8) (F64.ofInt 5) = F64.ofInt 3 ∧
    Examples.shadowSecond.ms "entityName" ≠ some (Value.float (F64.ofInt 3)) := by
  decide!

/-- C19 (amended): the cache key does not depend on the kind, so for every name other than
"entityName" and "event_type", if `v1` is submitted as RATE and then `v2 >= v1` as DELTA under
the same name in the same set at a later timestamp (both `int64`), the second call succeeds and
stores `v2 - v1`; and for DELTA followed by RATE it succeeds and stores
`(v2 - v1) / (t2 - t1)` when `t2 - t1` fits in `int64` (`t2 - t1 < 2^63`). -/
theorem C19_shared_baseline (go : GoLib) (cache : Cache) (ms : MetricSet) (name : String)
    (value1 value2 : Value) (k1 k2 : SourceType) (v1 v2 : F64) (t1 t2 : Int)
    (hkinds : (k1 = RATE ∧ k2 = DELTA) ∨ (k1 = DELTA ∧ k2 = RATE))
    (hr1 : go.parseFloat (go.sprintV value1) = some v1)
    (hr2 : go.parseFloat (go.sprintV value2) = some v2)
    (hge : F64.ge v2 v1 = true)
    (ht1 : isInt64 t1) (ht2 : isInt64 t2) (ht : t1 < t2)
    (hname : name ≠ "entityName" ∧ name ≠ "event_type") :
    (SetMetric go t2 (SetMetric go t1 cache ms name value1 k1).cache
      (SetMetric go t1 cache ms name value1 k1).ms name value2 k2).err = none ∧
    (k2 = DELTA →
      (SetMetric go t2 (SetMetric go t1 cache ms name value1 k1).cache
        (SetMetric go t1 cache ms name value1 k1).ms name value2 k2).ms name
        = some (Value.float (F64.sub v2 v1))) ∧
    (k2 = RATE → t2 - t1 < (2 : Int) ^ 63 →
      (SetMetric go t2 (SetMetric go t1 cache ms name value1 k1).cache
        (SetMetric go t1 cache ms name value1 k1).ms name value2 k2).ms name
        = some (Value.float (F64.div (F64.sub v2 v1) (F64.ofInt (t2 - t1))))) := by
  have hk1 : k1 = RATE ∨ k1 = DELTA := by
    rcases hkinds with h | h
    · exact Or.inl h.1
    · exact Or.inr h.1
  have hk2 : k2 = RATE ∨ k2 = DELTA := by
    rcases hkinds with h | h
    · exact Or.inr h.2
    · exact Or.inl h.2
  have hkey : cacheKey (SetMetric go t1 cache ms name value1 k1).ms name = cacheKey ms name :=
    cacheKey_congr ms _ name
      (SetMetric_ms_other go t1 cache ms name value1 k1 "entityName" (fun h => hname.1 h.symm))
      (SetMetric_ms_other go t1 cache ms name value1 k1 "event_type" (fun h => hname.2 h.symm))
  have hc : (SetMetric go t1 cache ms name value1 k1).cache
      (cacheKey (SetMetric go t1 cache ms name value1 k1).ms name) = some (v1, t1) := by
    rw [hkey, SetMetric_cache_sampling go t1 cache ms name value1 k1 v1 hk1 hr1]
    exact cache_Set_same cache t1 _ v1
  have hd : wrapInt64 (t2 - t1) ≠ 0 := wrapInt64_sub_ne_zero t2 t1 ht2 ht1 (by omega)
  have hlt : F64.lt (F64.sub v2 v1) F64.zero = false := by
    rw [F64.sub_lt_zero]; exact F64.ge_imp_not_lt v2 v1 hge
  have herr := SetMetric_err_seen go t2 _ _ name value2 k2 v2 v1 t1 hk2 hr2 hc
  have hms := SetMetric_ms_seen go t2 _ _ name value2 k2 v2 v1 t1 hk2 hr2 hc hd hlt
  rw [if_neg hd, hlt] at herr
  refine ⟨by simpa using herr, ?_, ?_⟩
  · intro hk
    rw [hms, if_pos hk]
  · intro hk hfit
    have hnd : ¬ (k2 = DELTA) := by rw [hk]; decide
    rw [hms, if_neg hnd, wrapInt64_sub_fits t2 t1 (by omega) hfit]

/-- Witness of C19 (amended): under "cpu", 10 as RATE at time 0 then 30 as DELTA at time 10
stores 20; 10 as DELTA at time 0 then 30 as RATE at time 10 stores 2.0. -/
theorem C19_shared_baseline_witness :
    ((RATE = RATE ∧ DELTA = DELTA) ∨ (RATE = DELTA ∧ DELTA = RATE)) ∧
    F64.ge (F64.ofInt 30) (F64.ofInt 10) = true ∧
    isInt64 0 ∧ isInt64 10 ∧ (0 : Int) < 10 ∧ (10 : Int) - 0 < 2 ^ 63 ∧
    ("cpu" ≠ "entityName" ∧ "cpu" ≠ "event_type") ∧
    (SetMetric stdLib 10
      (SetMetric stdLib 0 Cache.empty MetricSet.empty "cpu" (Value.int 10) RATE).cache
      (SetMetric stdLib 0 Cache.empty MetricSet.empty "cpu" (Value.int 10) RATE).ms "cpu"
      (Value.int 30) DELTA).err = none ∧
    (SetMetric stdLib 10
      (SetMetric stdLib 0 Cache.empty MetricSet.empty "cpu" (Value.int 10) RATE).cache
      (SetMetric stdLib 0 Cache.empty MetricSet.empty "cpu" (Value.int 10) RATE).ms "cpu"
      (Value.int 30) DELTA).ms "cpu" = some (Value.float (F64.ofInt 20)) ∧
    (SetMetric stdLib 10
      (SetMetric stdLib 0 Cache.empty MetricSet.empty "cpu" (Value.int 10) DELTA).cache
      (SetMetric stdLib 0 Cache.empty MetricSet.empty "cpu" (Value.int 10) DELTA).ms "cpu"
      (Value.int 30) RATE).ms "cpu" = some (Value.float (F64.ofInt 2)) :=
  have h := C19_shared_baseline stdLib Cache.empty MetricSet.empty "cpu" (Value.int 10)
    (Value.int 30) RATE DELTA (F64.ofInt 10) (F64.ofInt 30) 0 10 (Or.inl ⟨rfl, rfl⟩)
    (by decide!) (by decide!) (by decide!) (by decide) (by decide) (by decide)
    ⟨by decide, by decide⟩
  have h2 := C19_shared_baseline stdLib Cache.empty MetricSet.empty "cpu" (Value.int 10)
    (Value.int 30) DELTA RATE (F64.ofInt 10) (F64.ofInt 30) 0 10 (Or.inr ⟨rfl, rfl⟩)
    (by decide!) (by decide!) (by decide!) (by decide) (by decide) (by decide)
    ⟨by decide, by decide⟩
  ⟨Or.inl ⟨rfl, rfl⟩, by decide!, by decide, by decide, by decide, by decide,
    ⟨by decide, by decide⟩, h.1, (h.2.1 rfl).trans (by decide!),
    (h2.2.2 rfl (by decide)).trans (by decide!)⟩

end metric

namespace apiserver

/-! ## The node lookup of the test double -/

/-- C20: `GetNodeInfo` is a keyed lookup whose only error is "not found": when the name is a
key of `Mem` it returns the stored node and no error; otherwise it returns no node and the
error "could not find node info for: " followed by the name; it never modifies `Mem`. -/
theorem C20_GetNodeInfo_lookup {NodeInfo : Type} (t : TestAPIServer NodeInfo)
    (nodeName : String) :
    (∀ node, t.Mem nodeName = some node →
      (t.GetNodeInfo nodeName).node = node ∧ (t.GetNodeInfo nodeName).err = none) ∧
    (t.Mem nodeName = none →
      (t.GetNodeInfo nodeName).node = none ∧
      (t.GetNodeInfo nodeName).err = some ("could not find node info for: " ++ nodeName)) ∧
    (∀ e, (t.GetNodeInfo nodeName).err = some e →
      e = "could not find node info for: " ++ nodeName ∧ t.Mem nodeName = none) ∧
    (t.GetNodeInfo nodeName).server = t := by
  refine ⟨?_, ?_, ?_, ?_⟩
  · intro node h
    simp [TestAPIServer.GetNodeInfo, h]
  · intro h
    simp [TestAPIServer.GetNodeInfo, h]
  · intro e h
    cases hm : t.Mem nodeName with
    | none =>
      simp [TestAPIServer.GetNodeInfo, hm] at h
      exact ⟨h.symm, rfl⟩
    | some node => simp [TestAPIServer.GetNodeInfo, hm] at h
  · cases hm : t.Mem nodeName <;> simp [TestAPIServer.GetNodeInfo, hm]

/-- Witness of C20: the stored node "node-1" is found; the name "node-2" is not. -/
theorem C20_GetNodeInfo_lookup_witness :
    oneNode.Mem "node-1" = some (some "info-1") ∧
    (oneNode.GetNodeInfo "node-1").node = some "info-1" ∧
    (oneNode.GetNodeInfo "node-1").err = none ∧
    oneNode.Mem "node-2" = none ∧
    (oneNode.GetNodeInfo "node-2").node = none ∧
    (oneNode.GetNodeInfo "node-2").err = some "could not find node info for: node-2" ∧
    (oneNode.GetNodeInfo "node-2").server = oneNode :=
  have h1 := (C20_GetNodeInfo_lookup oneNode "node-1").1 (some "info-1") (by decide)
  have h2 := (C20_GetNodeInfo_lookup oneNode "node-2").2.1 (by decide)
  ⟨by decide, h1.1, h1.2, by decide, h2.1, h2.2.trans (by decide),
    (C20_GetNodeInfo_lookup oneNode "node-2").2.2.2⟩

end apiserver
